import Mathlib

/-!
Verification development for the a2a-poc backend.

Shallow embedding of the three core components:
  * the Task Lifecycle Engine (`apps/backend/app/services/task_manager.py`),
  * the Delegation Transport (`apps/backend/app/services/a2a_handler.py`),
  * the Rate-Limiting Gateway (`apps/backend/app/middleware/rate_limit.py`).

Engine timestamps are naturals fed in from the ambient clock (each Python
`datetime.utcnow()` reading inside one operation is modelled by the single
`now` argument of that operation).  Rate-limiter timestamps are integers in
seconds, so that `timedelta(minutes=1)` is the integer 60 and
`timedelta(hours=1)` is 3600.
-/

namespace A2APoC

/-- Status constants `TaskStatus` from `task_manager.py`. -/
inductive TaskStatus where
  | pending
  | assigned
  | inProgress
  | completed
  | failed
  | cancelled
  deriving DecidableEq, Repr

/-- The caller-supplied `task_data` dictionary: the keys that
`create_task` reads (`title`, `description`, `task_type`, `deadline`,
`max_retries`, `metadata`), each optional because `dict.get` is used with a
default.  The rest of the payload is opaque and irrelevant to the claims. -/
structure TaskData where
  title : Option String := none
  description : Option String := none
  task_type : Option String := none
  deadline : Option Nat := none
  max_retries : Option Nat := none
  metadata : Option String := none
  deriving DecidableEq, Repr

/-- A task document as built by `TaskManagementService.create_task`.
`task_id` is a natural drawn from a fresh-id counter standing for
`uuid.uuid4()`; `metadata` is an opaque string standing for the free-form
metadata map. -/
structure Task where
  task_id : Nat
  agent_id : Int
  agent_name : String
  group_id : Option String
  title : String
  description : String
  task_type : String
  priority : Nat
  status : TaskStatus
  task_data : TaskData
  result : Option String
  error : Option String
  created_at : Nat
  updated_at : Nat
  started_at : Option Nat
  completed_at : Option Nat
  deadline : Option Nat
  retry_count : Nat
  max_retries : Nat
  metadata : Option String
  deriving DecidableEq, Repr

/-- An agent document, restricted to the fields the engine touches:
`token_id`, `name`, `endpoint` and the statistics counters incremented by
`_update_agent_stats`. -/
structure Agent where
  token_id : Int
  name : Option String
  endpoint : Option String
  completed_tasks : Nat := 0
  failed_tasks : Nat := 0
  total_tasks : Nat := 0
  deriving DecidableEq, Repr

/-- The engine's world: the tasks collection, the agents collection and the
fresh-id counter standing for the uuid source. -/
structure EngineState where
  tasks : List Task
  agents : List Agent
  nextId : Nat
  deriving DecidableEq, Repr

/-- The distinct `ValueError`s raised by the engine, one constructor per
distinct message. -/
inductive EngineError where
  | agentNotFound (agent_id : Int)
  | noEndpoint (agent_id : Int)
  | taskNotFound (task_id : Nat)
  | notFailedStatus (task_id : Nat)
  | maxRetriesReached (task_id : Nat)
  deriving DecidableEq, Repr

/-- Outcome of the single `client.post` performed by
`A2AProtocolHandler.send_task`: an HTTP response with a status code and a
body, a timeout, or a connection-level exception. -/
inductive HttpResult where
  | response (statusCode : Nat) (body : String)
  | timeoutExn
  | connexn (msg : String)
  deriving DecidableEq, Repr

/-- The three failure conditions `send_task` surfaces, one constructor per
raised exception, carrying exactly the data interpolated into its message:
`Exception(f"Agent at ... timed out")`, `Exception(f"Agent returned error:
...")`, and the re-raised connection error. -/
inductive SendError where
  | timeout (endpoint : String)
  | remoteRejected (statusCode : Nat)
  | transportError (msg : String)
  deriving DecidableEq, Repr

/-- The check `httpx.Response.raise_for_status` raises exactly on non-2xx codes. -/
def is_success_status (code : Nat) : Bool :=
  200 ≤ code && code < 300

/-- Result of `send_task` on one concrete network outcome: mirrors the
`try`/`except` ladder of `A2AProtocolHandler.send_task` (timeout first,
then HTTP status error, then the re-raising generic handler). -/
def send_task_result (endpoint : String) (attempt : HttpResult) :
    Except SendError String :=
  match attempt with
  | .response code body =>
      if is_success_status code then .ok body
      else .error (.remoteRejected code)
  | .timeoutExn => .error (.timeout endpoint)
  | .connexn msg => .error (.transportError msg)

/-- Transport `send_task` against a network oracle listing the outcomes successive
post attempts would have.  The code performs exactly one `client.post`, so
only `net 0` is consulted. -/
def send_task (endpoint : String) (net : Nat → HttpResult) :
    Except SendError String :=
  send_task_result endpoint (net 0)

/-- Constant `settings.A2A_DEFAULT_TIMEOUT` (config.py, default 30). -/
def A2A_DEFAULT_TIMEOUT : Nat := 30

/-- The `if timeout is None: timeout = self.default_timeout` prologue of
`send_task`. -/
def resolve_timeout (timeout : Option Nat) : Nat :=
  timeout.getD A2A_DEFAULT_TIMEOUT

/-- Lookup `find_one` by `token_id` on the agents collection. -/
def findAgent (s : EngineState) (agent_id : Int) : Option Agent :=
  s.agents.find? (fun a => a.token_id == agent_id)

/-- Lookup `find_one` by `task_id` on the tasks collection
(`get_task` minus the dropped Mongo `_id`). -/
def getTask (s : EngineState) (task_id : Nat) : Option Task :=
  s.tasks.find? (fun t => t.task_id == task_id)

/-- The `task_doc` literal built by `create_task`, with every
`task_data.get(..., default)` spelled out. -/
def newTaskDoc (now : Nat) (task_id : Nat) (agent_id : Int) (agent : Agent)
    (td : TaskData) (group_id : Option String) (priority : Nat) : Task :=
  { task_id := task_id
    agent_id := agent_id
    agent_name := agent.name.getD ("Agent #" ++ toString agent_id)
    group_id := group_id
    title := td.title.getD "Untitled Task"
    description := td.description.getD ""
    task_type := td.task_type.getD "general"
    priority := priority
    status := .pending
    task_data := td
    result := none
    error := none
    created_at := now
    updated_at := now
    started_at := none
    completed_at := none
    deadline := td.deadline
    retry_count := 0
    max_retries := td.max_retries.getD 3
    metadata := td.metadata }

/-- Operation `TaskManagementService.create_task`: look the agent up, build the
document, insert it.  On `ValueError` nothing has been written, so the
state is returned unchanged alongside the error. -/
def create_task (now : Nat) (agent_id : Int) (td : TaskData)
    (group_id : Option String) (priority : Nat) (s : EngineState) :
    Except EngineError Task × EngineState :=
  match findAgent s agent_id with
  | none => (.error (.agentNotFound agent_id), s)
  | some agent =>
      let task := newTaskDoc now s.nextId agent_id agent td group_id priority
      (.ok task, { s with tasks := s.tasks ++ [task], nextId := s.nextId + 1 })

/-- The `$set` document assembled by `update_task_status` applied to one
task.  The Python guard `"started_at" not in update_data` inspects the
update payload being built — whose keys so far are only `status`,
`updated_at`, `result`, `error`, `metadata` — so it is always true and the
`in_progress` branch sets `started_at` unconditionally. -/
def applyStatusUpdate (now : Nat) (status : TaskStatus)
    (result error metadata : Option String) (t : Task) : Task :=
  { t with
    status := status
    updated_at := now
    result := match result with | some r => some r | none => t.result
    error := match error with | some e => some e | none => t.error
    metadata := match metadata with | some m => some m | none => t.metadata
    started_at := if status = .inProgress then some now else t.started_at
    completed_at := if status = .completed then some now else t.completed_at }

/-- Helper `_update_agent_stats`: re-read the task, then `$inc` the owning agent's
counters when the new status is terminal. -/
def updateAgentStats (task_id : Nat) (status : TaskStatus) (s : EngineState) :
    EngineState :=
  match getTask s task_id with
  | none => s
  | some task =>
      if status = .completed then
        { s with agents := s.agents.map (fun a =>
            if a.token_id == task.agent_id then
              { a with completed_tasks := a.completed_tasks + 1,
                       total_tasks := a.total_tasks + 1 }
            else a) }
      else if status = .failed then
        { s with agents := s.agents.map (fun a =>
            if a.token_id == task.agent_id then
              { a with failed_tasks := a.failed_tasks + 1,
                       total_tasks := a.total_tasks + 1 }
            else a) }
      else s

/-- Operation `TaskManagementService.update_task_status`.  `update_one` matches on
`task_id`; a positive `modified_count` is modelled as "a document with this
`task_id` exists".  On a match the `$set` document is applied and
`_update_agent_stats` runs; otherwise `False` is returned and nothing
changes. -/
def update_task_status (now : Nat) (task_id : Nat) (status : TaskStatus)
    (result error metadata : Option String) (s : EngineState) :
    Bool × EngineState :=
  match getTask s task_id with
  | none => (false, s)
  | some _ =>
      let s1 := { s with tasks := s.tasks.map (fun t =>
        if t.task_id == task_id then
          applyStatusUpdate now status result error metadata t
        else t) }
      (true, updateAgentStats task_id status s1)

/-- Operation `TaskManagementService.delegate_task`: create, re-resolve the agent,
require an endpoint, probe liveness, and either record a failure, forward
and mark assigned, or swallow the transport error and leave the task as
created.  `available` is the result of `check_endpoint_availability` (which
never raises) and `attempt` the outcome of the single post inside
`send_task`.  Note that the returned value is the `task` dict captured at
creation time, not a re-read of the stored document. -/
def delegate_task (now : Nat) (available : Bool) (attempt : HttpResult)
    (agent_id : Int) (td : TaskData) (group_id : Option String)
    (s : EngineState) : Except EngineError Task × EngineState :=
  match create_task now agent_id td group_id 1 s with
  | (.error e, s1) => (.error e, s1)
  | (.ok task, s1) =>
      match findAgent s1 agent_id with
      | none => (.error (.agentNotFound agent_id), s1)
      | some agent =>
          match agent.endpoint with
          | none => (.error (.noEndpoint agent_id), s1)
          | some endpoint =>
              if available then
                match send_task_result endpoint attempt with
                | .ok resp =>
                    (.ok task,
                     (update_task_status now task.task_id .assigned
                        none none (some resp) s1).2)
                | .error _ => (.ok task, s1)
              else
                (.ok task,
                 (update_task_status now task.task_id .failed
                    none (some "Agent endpoint is not available") none s1).2)

/-- Operation `TaskManagementService.retry_task`: the three ordered precondition
checks, then the `$inc`/`$set` on the original task, then re-delegation
with the original payload and group. -/
def retry_task (now : Nat) (available : Bool) (attempt : HttpResult)
    (task_id : Nat) (s : EngineState) : Except EngineError Task × EngineState :=
  match getTask s task_id with
  | none => (.error (.taskNotFound task_id), s)
  | some task =>
      if task.status ≠ .failed then
        (.error (.notFailedStatus task_id), s)
      else if task.max_retries ≤ task.retry_count then
        (.error (.maxRetriesReached task_id), s)
      else
        let s1 := { s with tasks := s.tasks.map (fun t =>
          if t.task_id == task_id then
            { t with retry_count := t.retry_count + 1,
                     status := .pending,
                     error := none,
                     updated_at := now }
          else t) }
        delegate_task now available attempt task.agent_id task.task_data
          task.group_id s1

/-- Operation `TaskManagementService.cancel_task`: an unconditional status update to
`cancelled`. -/
def cancel_task (now : Nat) (task_id : Nat) (s : EngineState) :
    Bool × EngineState :=
  update_task_status now task_id .cancelled none none none s

/-- One engine operation, with the ambient clock reading and (for the
delegating operations) the network behaviour passed in. -/
inductive Op where
  | createOp (now : Nat) (agent_id : Int) (td : TaskData)
      (group_id : Option String) (priority : Nat)
  | updateStatusOp (now : Nat) (task_id : Nat) (status : TaskStatus)
      (result error metadata : Option String)
  | delegateOp (now : Nat) (available : Bool) (attempt : HttpResult)
      (agent_id : Int) (td : TaskData) (group_id : Option String)
  | retryOp (now : Nat) (available : Bool) (attempt : HttpResult)
      (task_id : Nat)
  | cancelOp (now : Nat) (task_id : Nat)
  deriving DecidableEq, Repr

/-- Apply one operation, keeping whatever state it leaves behind (also on a
raised error: partial effects persist, exactly as in the Python service). -/
def step (op : Op) (s : EngineState) : EngineState :=
  match op with
  | .createOp now aid td gid prio => (create_task now aid td gid prio s).2
  | .updateStatusOp now id st r e m => (update_task_status now id st r e m s).2
  | .delegateOp now av att aid td gid => (delegate_task now av att aid td gid s).2
  | .retryOp now av att id => (retry_task now av att id s).2
  | .cancelOp now id => (cancel_task now id s).2

/-- Run a sequence of engine operations. -/
def run (ops : List Op) (s : EngineState) : EngineState :=
  ops.foldl (fun s op => step op s) s

/-- The state at process start: given agents, no tasks, fresh-id counter at
zero. -/
def initState (agents : List Agent) : EngineState :=
  { tasks := [], agents := agents, nextId := 0 }

/-! ### Rate-Limiting Gateway (`middleware/rate_limit.py`)

Both middlewares keep per-caller timestamp lists in a dict keyed by the
caller identity; distinct callers' entries never interact, so the model
tracks the entry of one fixed caller.  An absent dict key is `none`. -/

/-- Comprehension `[ts for ts in l if ts > cutoff]`. -/
def pruneWindow (cutoff : Int) (l : List Int) : List Int :=
  l.filter (fun ts => decide (cutoff < ts))

/-- One caller's entries in `RateLimitMiddleware.minute_requests` /
`hour_requests`; `none` when the caller key is absent from the dict. -/
structure RL1State where
  minute_requests : Option (List Int)
  hour_requests : Option (List Int)
  deriving DecidableEq, Repr

/-- Check `RateLimitMiddleware._check_rate_limit` on one caller's entry: early
return when the key is absent, otherwise prune, store the pruned list
back, and reject (second component `some retryAfter`) when the pruned
length is at or above the limit.  The rejection's `Retry-After` is
`storage[client_id][0] - cutoff`; on a rejection with a positive limit the
pruned list is nonempty, so the `headD` default is never the value used. -/
def check_rate_limit (now window : Int) (limit : Nat)
    (entry : Option (List Int)) : Option (List Int) × Option Int :=
  match entry with
  | none => (none, none)
  | some l =>
      let cutoff := now - window
      let pruned := pruneWindow cutoff l
      if limit ≤ pruned.length then
        (some pruned, some (pruned.headD 0 - cutoff))
      else
        (some pruned, none)

/-- Recorder `RateLimitMiddleware._record_request`: initialise missing entries to
`[]` and append `now` to both lists. -/
def record_request (now : Int) (s : RL1State) : RL1State :=
  { minute_requests := some ((s.minute_requests.getD []) ++ [now])
    hour_requests := some ((s.hour_requests.getD []) ++ [now]) }

/-- Outcome of one pass through `RateLimitMiddleware.dispatch` for a
non-bypassed path. -/
inductive AdmitResult where
  | admitted
  | rejectedMinute (retryAfter : Int)
  | rejectedHour (retryAfter : Int)
  deriving DecidableEq, Repr

/-- The admission part of `RateLimitMiddleware.dispatch`: minute check,
hour check, then record.  A minute rejection happens before the hour list
is even pruned, so the hour entry is left untouched in that case. -/
def rl1_dispatch (rpm rph : Nat) (now : Int) (s : RL1State) :
    AdmitResult × RL1State :=
  match check_rate_limit now 60 rpm s.minute_requests with
  | (m1, some ra) => (.rejectedMinute ra, { s with minute_requests := m1 })
  | (m1, none) =>
      match check_rate_limit now 3600 rph s.hour_requests with
      | (h1, some ra) =>
          (.rejectedHour ra, { minute_requests := m1, hour_requests := h1 })
      | (h1, none) =>
          (.admitted,
           record_request now { minute_requests := m1, hour_requests := h1 })

/-- Run a sequence of sequential requests from one caller through
`RateLimitMiddleware`; returns the timestamps of the admitted requests (in
order) and the final state. -/
def rl1_run (rpm rph : Nat) (nows : List Int) (s : RL1State) :
    List Int × RL1State :=
  match nows with
  | [] => ([], s)
  | n :: rest =>
      match rl1_dispatch rpm rph n s with
      | (.admitted, s1) =>
          let r := rl1_run rpm rph rest s1
          (n :: r.1, r.2)
      | (_, s1) => rl1_run rpm rph rest s1

/-- The caller key never seen before: absent from both dicts. -/
def rl1Init : RL1State := { minute_requests := none, hour_requests := none }

/-- Table `APIKeyRateLimitMiddleware.tier_limits` with the
`self.tier_limits.get(tier, self.tier_limits["free"])` default. -/
def tier_limits (tier : String) : Nat × Nat :=
  if tier = "free" then (60, 1000)
  else if tier = "basic" then (120, 5000)
  else if tier = "pro" then (300, 20000)
  else (60, 1000)

/-- One caller's entry in `APIKeyRateLimitMiddleware.requests` after the
lazy `{"minute": [], "hour": []}` initialisation. -/
structure RL2State where
  minute : List Int
  hour : List Int
  deriving DecidableEq, Repr

/-- Outcome of `APIKeyRateLimitMiddleware._apply_rate_limit`. -/
inductive AdmitResult2 where
  | admitted
  | rejected (retryAfter : Int)
  deriving DecidableEq, Repr

/-- Check `APIKeyRateLimitMiddleware._apply_rate_limit` on one caller: prune both
lists, check minute then hour, then record in both.  The `Retry-After`
header on rejection is the constant `"60"` or `"3600"`. -/
def apply_rate_limit (tier : String) (now : Int) (s : RL2State) :
    AdmitResult2 × RL2State :=
  let limits := tier_limits tier
  let m := pruneWindow (now - 60) s.minute
  let h := pruneWindow (now - 3600) s.hour
  if limits.1 ≤ m.length then
    (.rejected 60, { minute := m, hour := h })
  else if limits.2 ≤ h.length then
    (.rejected 3600, { minute := m, hour := h })
  else
    (.admitted, { minute := m ++ [now], hour := h ++ [now] })

/-- Run sequential requests from one caller through
`APIKeyRateLimitMiddleware._apply_rate_limit`; returns the admitted
timestamps and the final state. -/
def rl2_run (tier : String) (nows : List Int) (s : RL2State) :
    List Int × RL2State :=
  match nows with
  | [] => ([], s)
  | n :: rest =>
      match apply_rate_limit tier n s with
      | (.admitted, s1) =>
          let r := rl2_run tier rest s1
          (n :: r.1, r.2)
      | (.rejected _, s1) => rl2_run tier rest s1

/-- A caller's freshly initialised entry. -/
def rl2Init : RL2State := { minute := [], hour := [] }

/-- Number of admitted requests whose timestamp lies in the rolling window
`(t - w, t]`. -/
def countWindow (w t : Int) (admitted : List Int) : Nat :=
  admitted.countP (fun x => decide (t - w < x ∧ x ≤ t))

/-! ### Basic facts about the `$set` document -/

@[simp]
theorem applyStatusUpdate_task_id (now : Nat) (st : TaskStatus)
    (r e m : Option String) (t : Task) :
    (applyStatusUpdate now st r e m t).task_id = t.task_id := rfl

@[simp]
theorem applyStatusUpdate_agent_id (now : Nat) (st : TaskStatus)
    (r e m : Option String) (t : Task) :
    (applyStatusUpdate now st r e m t).agent_id = t.agent_id := rfl

@[simp]
theorem applyStatusUpdate_status (now : Nat) (st : TaskStatus)
    (r e m : Option String) (t : Task) :
    (applyStatusUpdate now st r e m t).status = st := rfl

@[simp]
theorem applyStatusUpdate_retry_count (now : Nat) (st : TaskStatus)
    (r e m : Option String) (t : Task) :
    (applyStatusUpdate now st r e m t).retry_count = t.retry_count := rfl

@[simp]
theorem applyStatusUpdate_max_retries (now : Nat) (st : TaskStatus)
    (r e m : Option String) (t : Task) :
    (applyStatusUpdate now st r e m t).max_retries = t.max_retries := rfl

@[simp]
theorem applyStatusUpdate_started_at (now : Nat) (st : TaskStatus)
    (r e m : Option String) (t : Task) :
    (applyStatusUpdate now st r e m t).started_at =
      if st = .inProgress then some now else t.started_at := rfl

@[simp]
theorem applyStatusUpdate_completed_at (now : Nat) (st : TaskStatus)
    (r e m : Option String) (t : Task) :
    (applyStatusUpdate now st r e m t).completed_at =
      if st = .completed then some now else t.completed_at := rfl

@[simp]
theorem applyStatusUpdate_error (now : Nat) (st : TaskStatus)
    (r e m : Option String) (t : Task) :
    (applyStatusUpdate now st r e m t).error =
      (match e with | some x => some x | none => t.error) := rfl

/-! ### `find?` helpers -/

/-- Searching `find?` by task id commutes with a map that preserves task ids. -/
theorem find?_map_of_id_preserving (f : Task → Task)
    (hf : ∀ t, (f t).task_id = t.task_id) (l : List Task) (id : Nat) :
    (l.map f).find? (fun t => t.task_id == id) =
      (l.find? (fun t => t.task_id == id)).map f := by
  induction l with
  | nil => rfl
  | cons a l ih =>
      simp only [List.map_cons, List.find?, hf a]
      cases h : (a.task_id == id)
      · simpa [h] using ih
      · simp [h]

/-- Searching `find?` over an appended list. -/
theorem find?_append {α : Type} (p : α → Bool) (l l2 : List α) :
    (l ++ l2).find? p = ((l.find? p).orElse (fun _ => l2.find? p)) := by
  induction l with
  | nil => rfl
  | cons a l ih =>
      simp only [List.cons_append, List.find?]
      cases h : p a
      · simpa [h] using ih
      · simp [h]

/-! ### Facts about `update_task_status` -/

@[simp]
theorem updateAgentStats_tasks (id : Nat) (st : TaskStatus) (s : EngineState) :
    (updateAgentStats id st s).tasks = s.tasks := by
  unfold updateAgentStats
  split
  · rfl
  · split
    · rfl
    · split <;> rfl

@[simp]
theorem updateAgentStats_nextId (id : Nat) (st : TaskStatus) (s : EngineState) :
    (updateAgentStats id st s).nextId = s.nextId := by
  unfold updateAgentStats
  split
  · rfl
  · split
    · rfl
    · split <;> rfl

theorem update_task_status_not_found (now : Nat) (id : Nat) (st : TaskStatus)
    (r e m : Option String) (s : EngineState) (h : getTask s id = none) :
    update_task_status now id st r e m s = (false, s) := by
  simp [update_task_status, h]

theorem update_task_status_tasks (now : Nat) (id : Nat) (st : TaskStatus)
    (r e m : Option String) (s : EngineState) (t : Task)
    (h : getTask s id = some t) :
    (update_task_status now id st r e m s).2.tasks =
      s.tasks.map (fun u =>
        if u.task_id == id then applyStatusUpdate now st r e m u else u) := by
  simp [update_task_status, h]

@[simp]
theorem update_task_status_nextId (now : Nat) (id : Nat) (st : TaskStatus)
    (r e m : Option String) (s : EngineState) :
    (update_task_status now id st r e m s).2.nextId = s.nextId := by
  unfold update_task_status
  cases getTask s id <;> simp

theorem getTask_update_self (now : Nat) (id : Nat) (st : TaskStatus)
    (r e m : Option String) (s : EngineState) (t : Task)
    (h : getTask s id = some t) :
    getTask (update_task_status now id st r e m s).2 id =
      some (applyStatusUpdate now st r e m t) := by
  have h' : s.tasks.find? (fun t => t.task_id == id) = some t := h
  have htid : (t.task_id == id) = true := by
    simpa using List.find?_some h'
  have htasks := update_task_status_tasks now id st r e m s t h
  unfold getTask
  rw [htasks,
    find?_map_of_id_preserving _ (fun u => by split <;> rfl) _ _, h']
  simp only [Option.map_some', if_pos htid]

theorem getTask_update_other (now : Nat) (id id' : Nat) (st : TaskStatus)
    (r e m : Option String) (s : EngineState) (hne : id' ≠ id) :
    getTask (update_task_status now id st r e m s).2 id' = getTask s id' := by
  cases hg : getTask s id with
  | none => rw [update_task_status_not_found now id st r e m s hg]
  | some t =>
      have htasks := update_task_status_tasks now id st r e m s t hg
      unfold getTask
      rw [htasks,
        find?_map_of_id_preserving _ (fun u => by split <;> rfl) _ _]
      cases hfind : List.find? (fun t => t.task_id == id') s.tasks with
      | none => rfl
      | some u =>
          have hu : u.task_id = id' := by
            simpa using List.find?_some hfind
          have hcond : ¬ ((u.task_id == id) = true) := by
            intro hc
            have hc' : u.task_id = id := by simpa using hc
            exact hne (by rw [← hu]; exact hc')
          simp only [Option.map_some', if_neg hcond]

/-! ### State well-formedness: task ids are unique and below the counter -/

/-- Every stored task id was drawn from the fresh-id counter. -/
def IdBound (s : EngineState) : Prop :=
  ∀ t ∈ s.tasks, t.task_id < s.nextId

/-- Task ids are pairwise distinct (store-enforced `task_id` uniqueness). -/
def IdsNodup (s : EngineState) : Prop :=
  (s.tasks.map Task.task_id).Nodup

def StateWF (s : EngineState) : Prop := IdBound s ∧ IdsNodup s

theorem map_task_id_map (l : List Task) (f : Task → Task)
    (hf : ∀ t, (f t).task_id = t.task_id) :
    (l.map f).map Task.task_id = l.map Task.task_id := by
  induction l with
  | nil => rfl
  | cons a l ih => simp [hf, ih]

theorem wf_of_map (s s' : EngineState) (f : Task → Task)
    (hf : ∀ t, (f t).task_id = t.task_id)
    (htasks : s'.tasks = s.tasks.map f) (hnext : s'.nextId = s.nextId)
    (h : StateWF s) : StateWF s' := by
  obtain ⟨hb, hn⟩ := h
  constructor
  · intro t ht
    rw [htasks] at ht
    obtain ⟨a, ha, rfl⟩ := List.mem_map.1 ht
    rw [hf, hnext]
    exact hb a ha
  · unfold IdsNodup
    rw [htasks, map_task_id_map _ _ hf]
    exact hn

theorem wf_of_append_new (s s' : EngineState) (task : Task)
    (htasks : s'.tasks = s.tasks ++ [task]) (hid : task.task_id = s.nextId)
    (hnext : s'.nextId = s.nextId + 1) (h : StateWF s) : StateWF s' := by
  obtain ⟨hb, hn⟩ := h
  constructor
  · intro t ht
    rw [htasks, List.mem_append] at ht
    rw [hnext]
    rcases ht with ht | ht
    · exact Nat.lt_succ_of_lt (hb t ht)
    · rw [List.mem_singleton.1 ht, hid]
      exact Nat.lt_succ_self _
  · unfold IdsNodup
    rw [htasks, List.map_append]
    simp only [List.map_cons, List.map_nil]
    rw [List.nodup_append]
    refine ⟨hn, List.nodup_singleton _, ?_⟩
    intro x hx hmem
    have : x = task.task_id := by simpa using hmem
    subst this
    obtain ⟨a, ha, hax⟩ := List.mem_map.1 hx
    have := hb a ha
    rw [hax, hid] at this
    exact absurd this (lt_irrefl _)

theorem wf_create (now : Nat) (aid : Int) (td : TaskData)
    (gid : Option String) (prio : Nat) (s : EngineState) (h : StateWF s) :
    StateWF (create_task now aid td gid prio s).2 := by
  unfold create_task
  cases hf : findAgent s aid with
  | none => exact h
  | some agent =>
      exact wf_of_append_new s _ _ rfl rfl rfl h

theorem wf_update (now : Nat) (id : Nat) (st : TaskStatus)
    (r e m : Option String) (s : EngineState) (h : StateWF s) :
    StateWF (update_task_status now id st r e m s).2 := by
  cases hg : getTask s id with
  | none => rw [update_task_status_not_found now id st r e m s hg]; exact h
  | some t =>
      refine wf_of_map s _ _ (fun u => by split <;> rfl)
        (update_task_status_tasks now id st r e m s t hg) ?_ h
      simp

theorem wf_delegate (now : Nat) (av : Bool) (att : HttpResult) (aid : Int)
    (td : TaskData) (gid : Option String) (s : EngineState) (h : StateWF s) :
    StateWF (delegate_task now av att aid td gid s).2 := by
  have hc := wf_create now aid td gid 1 s h
  unfold delegate_task
  split
  · next e s1 heq => rw [heq] at hc; exact hc
  · next task s1 heq =>
      rw [heq] at hc
      split
      · exact hc
      · split
        · exact hc
        · split
          · split
            · exact wf_update _ _ _ _ _ _ _ hc
            · exact hc
          · exact wf_update _ _ _ _ _ _ _ hc

theorem wf_retry (now : Nat) (av : Bool) (att : HttpResult) (id : Nat)
    (s : EngineState) (h : StateWF s) :
    StateWF (retry_task now av att id s).2 := by
  unfold retry_task
  split
  · exact h
  · split
    · exact h
    · split
      · exact h
      · refine wf_delegate _ _ _ _ _ _ _ ?_
        exact wf_of_map s _ _ (fun u => by split <;> rfl) rfl rfl h

theorem wf_cancel (now : Nat) (id : Nat) (s : EngineState) (h : StateWF s) :
    StateWF (cancel_task now id s).2 :=
  wf_update now id .cancelled none none none s h

theorem wf_step (op : Op) (s : EngineState) (h : StateWF s) :
    StateWF (step op s) := by
  cases op with
  | createOp now aid td gid prio => exact wf_create now aid td gid prio s h
  | updateStatusOp now id st r e m => exact wf_update now id st r e m s h
  | delegateOp now av att aid td gid => exact wf_delegate now av att aid td gid s h
  | retryOp now av att id => exact wf_retry now av att id s h
  | cancelOp now id => exact wf_cancel now id s h

theorem run_cons (op : Op) (ops : List Op) (s : EngineState) :
    run (op :: ops) s = run ops (step op s) := rfl

theorem run_nil (s : EngineState) : run [] s = s := rfl

theorem wf_run (ops : List Op) (s : EngineState) (h : StateWF s) :
    StateWF (run ops s) := by
  induction ops generalizing s with
  | nil => exact h
  | cons op ops ih => exact ih (step op s) (wf_step op s h)

theorem wf_initState (agents : List Agent) : StateWF (initState agents) := by
  constructor
  · intro t ht
    simp [initState] at ht
  · simp [IdsNodup, initState]

/-! ### Generic preservation of per-task invariants -/

/-- Predicate `P` holds of every stored task. -/
def TasksInv (P : Task → Prop) (s : EngineState) : Prop :=
  ∀ t ∈ s.tasks, P t

theorem tasksInv_create {P : Task → Prop}
    (hnew : ∀ now id aid ag td gid prio, P (newTaskDoc now id aid ag td gid prio))
    (now : Nat) (aid : Int) (td : TaskData) (gid : Option String) (prio : Nat)
    (s : EngineState) (h : TasksInv P s) :
    TasksInv P (create_task now aid td gid prio s).2 := by
  unfold create_task
  cases hf : findAgent s aid with
  | none => exact h
  | some agent =>
      intro t ht
      simp only [List.mem_append, List.mem_singleton] at ht
      rcases ht with ht | rfl
      · exact h t ht
      · exact hnew _ _ _ _ _ _ _

theorem tasksInv_update {P : Task → Prop}
    (hP : ∀ now st r e m t, P t → P (applyStatusUpdate now st r e m t))
    (now : Nat) (id : Nat) (st : TaskStatus) (r e m : Option String)
    (s : EngineState) (h : TasksInv P s) :
    TasksInv P (update_task_status now id st r e m s).2 := by
  cases hg : getTask s id with
  | none => rw [update_task_status_not_found now id st r e m s hg]; exact h
  | some t =>
      intro u hu
      rw [update_task_status_tasks now id st r e m s t hg] at hu
      obtain ⟨a, ha, rfl⟩ := List.mem_map.1 hu
      split
      · exact hP _ _ _ _ _ _ (h a ha)
      · exact h a ha

theorem tasksInv_delegate {P : Task → Prop}
    (hnew : ∀ now id aid ag td gid prio, P (newTaskDoc now id aid ag td gid prio))
    (hP : ∀ now st r e m t, P t → P (applyStatusUpdate now st r e m t))
    (now : Nat) (av : Bool) (att : HttpResult) (aid : Int) (td : TaskData)
    (gid : Option String) (s : EngineState) (h : TasksInv P s) :
    TasksInv P (delegate_task now av att aid td gid s).2 := by
  have hc := tasksInv_create hnew now aid td gid 1 s h
  unfold delegate_task
  split
  · next e s1 heq => rw [heq] at hc; exact hc
  · next task s1 heq =>
      rw [heq] at hc
      split
      · exact hc
      · split
        · exact hc
        · split
          · split
            · exact tasksInv_update hP _ _ _ _ _ _ _ hc
            · exact hc
          · exact tasksInv_update hP _ _ _ _ _ _ _ hc

theorem tasksInv_retry {P : Task → Prop}
    (hnew : ∀ now id aid ag td gid prio, P (newTaskDoc now id aid ag td gid prio))
    (hP : ∀ now st r e m t, P t → P (applyStatusUpdate now st r e m t))
    (hinc : ∀ now t, P t → t.status = .failed → t.retry_count < t.max_retries →
      P { t with retry_count := t.retry_count + 1, status := .pending,
                 error := none, updated_at := now })
    (now : Nat) (av : Bool) (att : HttpResult) (id : Nat)
    (s : EngineState) (hwf : StateWF s) (h : TasksInv P s) :
    TasksInv P (retry_task now av att id s).2 := by
  unfold retry_task
  split
  · exact h
  · next task hfound =>
      split
      · exact h
      · next hst =>
          split
          · exact h
          · next hrc =>
              have hstatus : task.status = .failed := by
                by_contra hx
                exact hst (by simpa using hx)
              have hlt : task.retry_count < task.max_retries :=
                Nat.lt_of_not_le hrc
              have htmem : task ∈ s.tasks :=
                List.mem_of_find?_eq_some hfound
              have htid : task.task_id = id := by
                simpa using List.find?_some hfound
              refine tasksInv_delegate hnew hP _ _ _ _ _ _ _ ?_
              intro u hu
              obtain ⟨a, ha, rfl⟩ := List.mem_map.1 hu
              split
              · next hmatch =>
                  have haid : a.task_id = id := by simpa using hmatch
                  have : a = task := by
                    have hinj := List.inj_on_of_nodup_map hwf.2
                    exact hinj ha htmem (by rw [haid, htid])
                  subst this
                  exact hinc now a (h a ha) hstatus hlt
              · exact h a ha

theorem tasksInv_step {P : Task → Prop}
    (hnew : ∀ now id aid ag td gid prio, P (newTaskDoc now id aid ag td gid prio))
    (hP : ∀ now st r e m t, P t → P (applyStatusUpdate now st r e m t))
    (hinc : ∀ now t, P t → t.status = .failed → t.retry_count < t.max_retries →
      P { t with retry_count := t.retry_count + 1, status := .pending,
                 error := none, updated_at := now })
    (op : Op) (s : EngineState) (hwf : StateWF s) (h : TasksInv P s) :
    TasksInv P (step op s) := by
  cases op with
  | createOp now aid td gid prio => exact tasksInv_create hnew now aid td gid prio s h
  | updateStatusOp now id st r e m => exact tasksInv_update hP now id st r e m s h
  | delegateOp now av att aid td gid =>
      exact tasksInv_delegate hnew hP now av att aid td gid s h
  | retryOp now av att id => exact tasksInv_retry hnew hP hinc now av att id s hwf h
  | cancelOp now id => exact tasksInv_update hP now id .cancelled none none none s h

theorem tasksInv_run {P : Task → Prop}
    (hnew : ∀ now id aid ag td gid prio, P (newTaskDoc now id aid ag td gid prio))
    (hP : ∀ now st r e m t, P t → P (applyStatusUpdate now st r e m t))
    (hinc : ∀ now t, P t → t.status = .failed → t.retry_count < t.max_retries →
      P { t with retry_count := t.retry_count + 1, status := .pending,
                 error := none, updated_at := now })
    (ops : List Op) (s : EngineState) (hwf : StateWF s) (h : TasksInv P s) :
    TasksInv P (run ops s) := by
  induction ops generalizing s with
  | nil => exact h
  | cons op ops ih =>
      exact ih (step op s) (wf_step op s hwf)
        (tasksInv_step hnew hP hinc op s hwf h)

/-! ### Unfolding lemmas for `create_task` and `delegate_task` -/

theorem findAgent_of_agents_eq (s s' : EngineState) (aid : Int)
    (h : s'.agents = s.agents) : findAgent s' aid = findAgent s aid := by
  unfold findAgent
  rw [h]

theorem create_task_found (now : Nat) (aid : Int) (td : TaskData)
    (gid : Option String) (prio : Nat) (s : EngineState) (ag : Agent)
    (hag : findAgent s aid = some ag) :
    create_task now aid td gid prio s =
      (.ok (newTaskDoc now s.nextId aid ag td gid prio),
       { s with tasks := s.tasks ++ [newTaskDoc now s.nextId aid ag td gid prio],
                nextId := s.nextId + 1 }) := by
  unfold create_task
  rw [hag]

theorem find?_append_new (l : List Task) (task : Task) (id : Nat)
    (hid : task.task_id = id) (hnone : ∀ t ∈ l, t.task_id ≠ id) :
    (l ++ [task]).find? (fun t => t.task_id == id) = some task := by
  rw [find?_append]
  have hl : l.find? (fun t => t.task_id == id) = none :=
    List.find?_eq_none.2 (fun a ha => by simp [hnone a ha])
  rw [hl]
  simp [List.find?, hid]

/-- The state `delegate_task` starts from after its `create_task` call. -/
def afterCreate (now : Nat) (aid : Int) (ag : Agent) (td : TaskData)
    (gid : Option String) (s : EngineState) : EngineState :=
  { s with tasks := s.tasks ++ [newTaskDoc now s.nextId aid ag td gid 1],
           nextId := s.nextId + 1 }

@[simp]
theorem newTaskDoc_task_id (now id : Nat) (aid : Int) (ag : Agent)
    (td : TaskData) (gid : Option String) (prio : Nat) :
    (newTaskDoc now id aid ag td gid prio).task_id = id := rfl

@[simp]
theorem newTaskDoc_status (now id : Nat) (aid : Int) (ag : Agent)
    (td : TaskData) (gid : Option String) (prio : Nat) :
    (newTaskDoc now id aid ag td gid prio).status = .pending := rfl

@[simp]
theorem newTaskDoc_retry_count (now id : Nat) (aid : Int) (ag : Agent)
    (td : TaskData) (gid : Option String) (prio : Nat) :
    (newTaskDoc now id aid ag td gid prio).retry_count = 0 := rfl

@[simp]
theorem newTaskDoc_max_retries (now id : Nat) (aid : Int) (ag : Agent)
    (td : TaskData) (gid : Option String) (prio : Nat) :
    (newTaskDoc now id aid ag td gid prio).max_retries = td.max_retries.getD 3 := rfl

@[simp]
theorem newTaskDoc_error (now id : Nat) (aid : Int) (ag : Agent)
    (td : TaskData) (gid : Option String) (prio : Nat) :
    (newTaskDoc now id aid ag td gid prio).error = none := rfl

@[simp]
theorem newTaskDoc_started_at (now id : Nat) (aid : Int) (ag : Agent)
    (td : TaskData) (gid : Option String) (prio : Nat) :
    (newTaskDoc now id aid ag td gid prio).started_at = none := rfl

@[simp]
theorem newTaskDoc_completed_at (now id : Nat) (aid : Int) (ag : Agent)
    (td : TaskData) (gid : Option String) (prio : Nat) :
    (newTaskDoc now id aid ag td gid prio).completed_at = none := rfl

@[simp]
theorem newTaskDoc_agent_id (now id : Nat) (aid : Int) (ag : Agent)
    (td : TaskData) (gid : Option String) (prio : Nat) :
    (newTaskDoc now id aid ag td gid prio).agent_id = aid := rfl

/-- Behaviour of `delegate_task` when the agent has no endpoint: the
`ValueError` is raised only after `create_task` has persisted the task. -/
theorem delegate_no_endpoint (now : Nat) (av : Bool) (att : HttpResult)
    (aid : Int) (td : TaskData) (gid : Option String) (s : EngineState)
    (ag : Agent) (hag : findAgent s aid = some ag)
    (hep : ag.endpoint = none) :
    delegate_task now av att aid td gid s =
      (.error (.noEndpoint aid), afterCreate now aid ag td gid s) := by
  have hag1 : findAgent { s with
      tasks := s.tasks ++ [newTaskDoc now s.nextId aid ag td gid 1],
      nextId := s.nextId + 1 } aid = some ag := hag
  unfold delegate_task
  rw [create_task_found now aid td gid 1 s ag hag]
  dsimp only
  rw [hag1]
  dsimp only
  rw [hep]
  rfl

/-- Behaviour of `delegate_task` when the liveness probe reports the
endpoint unavailable: the stored task is failed, the creation-time dict is
returned. -/
theorem delegate_probe_down (now : Nat) (att : HttpResult)
    (aid : Int) (td : TaskData) (gid : Option String) (s : EngineState)
    (ag : Agent) (ep : String) (hag : findAgent s aid = some ag)
    (hep : ag.endpoint = some ep) :
    delegate_task now false att aid td gid s =
      (.ok (newTaskDoc now s.nextId aid ag td gid 1),
       (update_task_status now s.nextId .failed none
         (some "Agent endpoint is not available") none
         (afterCreate now aid ag td gid s)).2) := by
  have hag1 : findAgent { s with
      tasks := s.tasks ++ [newTaskDoc now s.nextId aid ag td gid 1],
      nextId := s.nextId + 1 } aid = some ag := hag
  unfold delegate_task
  rw [create_task_found now aid td gid 1 s ag hag]
  dsimp only
  rw [hag1]
  dsimp only
  rw [hep]
  dsimp only
  rw [if_neg (by simp)]
  rfl

/-- Behaviour of `delegate_task` when the probe passes and the transport
accepts: the stored task becomes `assigned`, the creation-time dict is
returned. -/
theorem delegate_send_ok (now : Nat) (att : HttpResult)
    (aid : Int) (td : TaskData) (gid : Option String) (s : EngineState)
    (ag : Agent) (ep resp : String) (hag : findAgent s aid = some ag)
    (hep : ag.endpoint = some ep)
    (hsr : send_task_result ep att = .ok resp) :
    delegate_task now true att aid td gid s =
      (.ok (newTaskDoc now s.nextId aid ag td gid 1),
       (update_task_status now s.nextId .assigned none none
         (some resp) (afterCreate now aid ag td gid s)).2) := by
  have hag1 : findAgent { s with
      tasks := s.tasks ++ [newTaskDoc now s.nextId aid ag td gid 1],
      nextId := s.nextId + 1 } aid = some ag := hag
  unfold delegate_task
  rw [create_task_found now aid td gid 1 s ag hag]
  dsimp only
  rw [hag1]
  dsimp only
  rw [hep]
  dsimp only
  rw [if_pos rfl, hsr]
  rfl

/-- Behaviour of `delegate_task` when the probe passes but the transport
fails: the exception is swallowed and the task is left as created. -/
theorem delegate_send_fail (now : Nat) (att : HttpResult)
    (aid : Int) (td : TaskData) (gid : Option String) (s : EngineState)
    (ag : Agent) (ep : String) (err : SendError)
    (hag : findAgent s aid = some ag) (hep : ag.endpoint = some ep)
    (hsr : send_task_result ep att = .error err) :
    delegate_task now true att aid td gid s =
      (.ok (newTaskDoc now s.nextId aid ag td gid 1),
       afterCreate now aid ag td gid s) := by
  have hag1 : findAgent { s with
      tasks := s.tasks ++ [newTaskDoc now s.nextId aid ag td gid 1],
      nextId := s.nextId + 1 } aid = some ag := hag
  unfold delegate_task
  rw [create_task_found now aid td gid 1 s ag hag]
  dsimp only
  rw [hag1]
  dsimp only
  rw [hep]
  dsimp only
  rw [if_pos rfl, hsr]
  rfl

/-- In a state with bounded ids, the freshly created task is the stored
document under its id. -/
theorem getTask_afterCreate_self (now : Nat) (aid : Int) (ag : Agent)
    (td : TaskData) (gid : Option String) (s : EngineState) (hb : IdBound s) :
    getTask (afterCreate now aid ag td gid s) s.nextId =
      some (newTaskDoc now s.nextId aid ag td gid 1) := by
  unfold getTask afterCreate
  exact find?_append_new _ _ _ rfl
    (fun t ht => Nat.ne_of_lt (hb t ht))

/-- Tasks other than the freshly created one are untouched by the append. -/
theorem getTask_afterCreate_other (now : Nat) (aid : Int) (ag : Agent)
    (td : TaskData) (gid : Option String) (s : EngineState) (id : Nat)
    (hne : id ≠ s.nextId) :
    getTask (afterCreate now aid ag td gid s) id = getTask s id := by
  unfold getTask afterCreate
  rw [find?_append]
  cases hfind : s.tasks.find? (fun t => t.task_id == id) with
  | some u => rfl
  | none =>
      have hid : (s.nextId == id) = false := by
        simp [Ne.symm hne]
      simp [List.find?, hid]

/-- Operation `delegate_task` never touches a stored task whose id differs from the
fresh id it allocates. -/
theorem getTask_delegate_other (now : Nat) (av : Bool) (att : HttpResult)
    (aid : Int) (td : TaskData) (gid : Option String) (s : EngineState)
    (id : Nat) (hne : id ≠ s.nextId) :
    getTask (delegate_task now av att aid td gid s).2 id = getTask s id := by
  cases hag : findAgent s aid with
  | none =>
      unfold delegate_task create_task
      rw [hag]
  | some ag =>
      cases hep : ag.endpoint with
      | none =>
          rw [delegate_no_endpoint now av att aid td gid s ag hag hep]
          exact getTask_afterCreate_other now aid ag td gid s id hne
      | some ep =>
          cases av with
          | false =>
              rw [delegate_probe_down now att aid td gid s ag ep hag hep]
              dsimp only
              rw [getTask_update_other _ _ _ _ _ _ _ _ hne]
              exact getTask_afterCreate_other now aid ag td gid s id hne
          | true =>
              cases hsr : send_task_result ep att with
              | ok resp =>
                  rw [delegate_send_ok now att aid td gid s ag ep resp hag hep hsr]
                  dsimp only
                  rw [getTask_update_other _ _ _ _ _ _ _ _ hne]
                  exact getTask_afterCreate_other now aid ag td gid s id hne
              | error err =>
                  rw [delegate_send_fail now att aid td gid s ag ep err hag hep hsr]
                  exact getTask_afterCreate_other now aid ag td gid s id hne

theorem getTask_guardMap_self (g : Task → Task)
    (hg : ∀ u, (g u).task_id = u.task_id) (s : EngineState) (id : Nat)
    (t : Task) (ht : getTask s id = some t) :
    getTask { s with tasks := s.tasks.map (fun u =>
      if u.task_id == id then g u else u) } id = some (g t) := by
  have ht' : s.tasks.find? (fun u => u.task_id == id) = some t := ht
  have htid : (t.task_id == id) = true := by
    simpa using List.find?_some ht'
  unfold getTask
  dsimp only
  rw [find?_map_of_id_preserving _ (fun u => by split; exacts [hg u, rfl]) _ _,
    ht', Option.map_some', if_pos htid]

theorem getTask_retryInc_self (now : Nat) (s : EngineState) (id : Nat)
    (t : Task) (ht : getTask s id = some t) :
    getTask { s with tasks := s.tasks.map (fun u =>
      if u.task_id == id then
        { u with retry_count := u.retry_count + 1, status := .pending,
                 error := none, updated_at := now }
      else u) } id
    = some { t with retry_count := t.retry_count + 1, status := .pending,
                    error := none, updated_at := now } :=
  getTask_guardMap_self (fun v =>
    { v with retry_count := v.retry_count + 1, status := .pending,
             error := none, updated_at := now }) (fun _ => rfl) s id t ht

/-- Operation `retry_task` on a retryable task reduces to re-delegation from the
incremented store. -/
theorem retry_task_main (now : Nat) (av : Bool) (att : HttpResult) (id : Nat)
    (s : EngineState) (t : Task) (ht : getTask s id = some t)
    (hst : t.status = .failed) (hlt : t.retry_count < t.max_retries) :
    retry_task now av att id s =
      delegate_task now av att t.agent_id t.task_data t.group_id
        { s with tasks := s.tasks.map (fun u =>
            if u.task_id == id then
              { u with retry_count := u.retry_count + 1, status := .pending,
                       error := none, updated_at := now }
            else u) } := by
  unfold retry_task
  rw [ht]
  dsimp only
  rw [if_neg (by simp [hst]), if_neg (by simp [Nat.not_le.2 hlt])]

theorem retry_task_not_found (now : Nat) (av : Bool) (att : HttpResult)
    (id : Nat) (s : EngineState) (h : getTask s id = none) :
    retry_task now av att id s = (.error (.taskNotFound id), s) := by
  unfold retry_task
  rw [h]

theorem retry_task_not_failed (now : Nat) (av : Bool) (att : HttpResult)
    (id : Nat) (s : EngineState) (t : Task) (h : getTask s id = some t)
    (hst : t.status ≠ .failed) :
    retry_task now av att id s = (.error (.notFailedStatus id), s) := by
  unfold retry_task
  rw [h]
  dsimp only
  rw [if_pos hst]

theorem retry_task_exhausted (now : Nat) (av : Bool) (att : HttpResult)
    (id : Nat) (s : EngineState) (t : Task) (h : getTask s id = some t)
    (hst : t.status = .failed) (hge : t.max_retries ≤ t.retry_count) :
    retry_task now av att id s = (.error (.maxRetriesReached id), s) := by
  unfold retry_task
  rw [h]
  dsimp only
  rw [if_neg (by simp [hst]), if_pos hge]

/-- Claim C4: `retry` checks its preconditions in order — existence,
`failed` status, retry counter strictly below max-retries — each violation
raising a distinct error, and on a violation the returned state is exactly
the input state: nothing is mutated. -/
theorem C4_retry_preconditions (now : Nat) (av : Bool) (att : HttpResult)
    (id : Nat) (s : EngineState) (t : Task) :
    (getTask s id = none →
      retry_task now av att id s = (.error (.taskNotFound id), s))
    ∧ (getTask s id = some t → t.status ≠ .failed →
      retry_task now av att id s = (.error (.notFailedStatus id), s))
    ∧ (getTask s id = some t → t.status = .failed →
      t.max_retries ≤ t.retry_count →
      retry_task now av att id s = (.error (.maxRetriesReached id), s)) :=
  ⟨fun h => retry_task_not_found now av att id s h,
   fun h hst => retry_task_not_failed now av att id s t h hst,
   fun h hst hge => retry_task_exhausted now av att id s t h hst hge⟩

/-- Concrete agent, tasks and states used by the claim witnesses. -/
def wAgent : Agent := { token_id := 1, name := some "Agent A",
                        endpoint := some "http://agent-a" }

def wtPending : Task := newTaskDoc 0 0 1 wAgent {} none 1

def wtFailed : Task := { wtPending with status := .failed }

def wtFailedMax : Task := { wtPending with status := .failed, retry_count := 3 }

def wsEmpty : EngineState := initState [wAgent]

def wsPending : EngineState := { tasks := [wtPending], agents := [wAgent], nextId := 1 }

def wsFailed : EngineState := { tasks := [wtFailed], agents := [wAgent], nextId := 1 }

def wsFailedMax : EngineState :=
  { tasks := [wtFailedMax], agents := [wAgent], nextId := 1 }

/-- Witness for C4: each precondition violation observed on a concrete
store, with the state returned unchanged. -/
theorem C4_retry_preconditions_witness :
    retry_task 0 true .timeoutExn 5 wsEmpty
      = (.error (.taskNotFound 5), wsEmpty)
    ∧ retry_task 0 true .timeoutExn 0 wsPending
      = (.error (.notFailedStatus 0), wsPending)
    ∧ retry_task 0 true .timeoutExn 0 wsFailedMax
      = (.error (.maxRetriesReached 0), wsFailedMax) :=
  ⟨(C4_retry_preconditions 0 true .timeoutExn 5 wsEmpty wtPending).1 rfl,
   (C4_retry_preconditions 0 true .timeoutExn 0 wsPending wtPending).2.1
     rfl (by decide),
   (C4_retry_preconditions 0 true .timeoutExn 0 wsFailedMax wtFailedMax).2.2
     rfl (by decide) (by decide)⟩

/-- Claim C8: the transport surfaces its three failure outcomes as three
distinct catchable conditions — timeout, remote rejection with the numeric
status preserved, connection-level transport error — performs no internal
retry (the result depends only on the first and only post attempt), and
resolves the timeout bound from the configured default unless overridden
per call. -/
theorem C8_send_task_failure_taxonomy (endpoint : String) (code : Nat)
    (body msg : String) (t0 : Nat) (net net2 : Nat → HttpResult)
    (hcode : is_success_status code = false) (hfirst : net 0 = net2 0) :
    send_task endpoint (fun _ => .timeoutExn) = .error (.timeout endpoint)
    ∧ send_task endpoint (fun _ => .response code body)
        = .error (.remoteRejected code)
    ∧ send_task endpoint (fun _ => .connexn msg)
        = .error (.transportError msg)
    ∧ SendError.timeout endpoint ≠ .remoteRejected code
    ∧ SendError.timeout endpoint ≠ .transportError msg
    ∧ SendError.remoteRejected code ≠ .transportError msg
    ∧ send_task endpoint net = send_task endpoint net2
    ∧ resolve_timeout none = A2A_DEFAULT_TIMEOUT
    ∧ resolve_timeout (some t0) = t0 := by
  refine ⟨rfl, ?_, rfl, by simp, by simp, by simp, ?_, rfl, rfl⟩
  · simp [send_task, send_task_result, hcode]
  · unfold send_task
    rw [hfirst]

/-- Witness for C8: the taxonomy at a concrete endpoint, a concrete 503
rejection, and a concrete network oracle. -/
theorem C8_send_task_failure_taxonomy_witness :
    send_task "http://agent-a" (fun _ => .timeoutExn)
      = .error (.timeout "http://agent-a")
    ∧ send_task "http://agent-a" (fun _ => .response 503 "oops")
        = .error (.remoteRejected 503)
    ∧ send_task "http://agent-a" (fun _ => .connexn "refused")
        = .error (.transportError "refused")
    ∧ SendError.timeout "http://agent-a" ≠ .remoteRejected 503
    ∧ SendError.timeout "http://agent-a" ≠ .transportError "refused"
    ∧ SendError.remoteRejected 503 ≠ .transportError "refused"
    ∧ send_task "http://agent-a" (fun _ => .timeoutExn)
        = send_task "http://agent-a" (fun n => if n = 0 then .timeoutExn else .connexn "later")
    ∧ resolve_timeout none = A2A_DEFAULT_TIMEOUT
    ∧ resolve_timeout (some 7) = 7 :=
  C8_send_task_failure_taxonomy "http://agent-a" 503 "oops" "refused" 7
    (fun _ => .timeoutExn)
    (fun n => if n = 0 then .timeoutExn else .connexn "later")
    (by decide) (by decide)

/-- Claim C3 fails as an `iff`: after completing and then cancelling task
0, the stored task is `cancelled` while `completed_at` is still set. -/
def c3ops : List Op :=
  [.createOp 0 1 {} none 1,
   .updateStatusOp 1 0 .completed (some "done") none none,
   .cancelOp 2 0]

def c3state : EngineState := run c3ops (initState [wAgent])

/-- Counterexample to claim C3: a run in which a task has `completed_at`
set while its current status is `cancelled`, so `completed_at` set is not
equivalent to status `completed`. -/
theorem C3_counterexample :
    (getTask c3state 0).map Task.status = some .cancelled
    ∧ (getTask c3state 0).map (fun t => t.completed_at.isSome) = some true
    ∧ ∃ t ∈ c3state.tasks,
        ¬ (t.status = .completed ↔ t.completed_at.isSome = true) := by
  decide

/-- Claim C3, amended: only the forward direction holds — whenever a
task's current status is `completed`, `completed_at` is set; a later
status overwrite (e.g. `cancel`) leaves `completed_at` set, so the reverse
direction fails. -/
theorem C3_completed_at_of_completed (agents : List Agent) (ops : List Op)
    (t : Task) (ht : t ∈ (run ops (initState agents)).tasks)
    (hst : t.status = .completed) : t.completed_at.isSome = true := by
  refine @tasksInv_run
    (fun u => u.status = .completed → u.completed_at.isSome = true)
    ?_ ?_ ?_ ops (initState agents) (wf_initState agents) ?_ t ht hst
  · intro now id aid ag td gid prio h
    simp at h
  · intro now st r e m u ih h
    rw [applyStatusUpdate_status] at h
    rw [applyStatusUpdate_completed_at, if_pos h]
    rfl
  · intro now u ih hf hlt h
    simp at h
  · intro u hu
    simp [initState] at hu

def c3wOps : List Op :=
  [.createOp 0 1 {} none 1,
   .updateStatusOp 1 0 .completed (some "done") none none]

def c3wTask : Task :=
  applyStatusUpdate 1 .completed (some "done") none none wtPending

/-- Witness for the amended C3: the concrete completed task of a concrete
run has `completed_at` set. -/
theorem C3_completed_at_of_completed_witness :
    c3wTask.completed_at.isSome = true :=
  C3_completed_at_of_completed [wAgent] c3wOps c3wTask (by decide) (by decide)

/-- Claim C5: at every state reachable by engine operations the retry
counter is bounded by max-retries; creation initialises it to zero;
`update_task_status` (hence also `cancel`) never changes it; `delegate`
never changes it on any previously stored task; and a successful `retry`
requires the counter strictly below the bound and increments the original
task's counter by exactly one. -/
theorem C5_retry_count_invariant
    (agents : List Agent) (ops : List Op) (t : Task)
    (ht : t ∈ (run ops (initState agents)).tasks)
    (cnow : Nat) (caid : Int) (ctd : TaskData) (cgid : Option String)
    (cprio : Nat) (cs s2 : EngineState) (ctask : Task)
    (hcreate : create_task cnow caid ctd cgid cprio cs = (.ok ctask, s2))
    (unow uid : Nat) (ust : TaskStatus) (ur ue um : Option String)
    (us : EngineState) (u : Task) (hu : getTask us uid = some u)
    (dnow : Nat) (dav : Bool) (datt : HttpResult) (daid : Int)
    (dtd : TaskData) (dgid : Option String) (ds : EngineState) (did : Nat)
    (hdne : did ≠ ds.nextId)
    (rnow : Nat) (rav : Bool) (ratt : HttpResult) (rid : Nat)
    (rs : EngineState) (rt rres : Task)
    (hwf : StateWF rs) (hrt : getTask rs rid = some rt)
    (hok : (retry_task rnow rav ratt rid rs).1 = .ok rres) :
    t.retry_count ≤ t.max_retries
    ∧ ctask.retry_count = 0
    ∧ (getTask (update_task_status unow uid ust ur ue um us).2 uid).map
        Task.retry_count = some u.retry_count
    ∧ (getTask (delegate_task dnow dav datt daid dtd dgid ds).2 did).map
        Task.retry_count = (getTask ds did).map Task.retry_count
    ∧ rt.retry_count < rt.max_retries
    ∧ (getTask (retry_task rnow rav ratt rid rs).2 rid).map
        Task.retry_count = some (rt.retry_count + 1) := by
  have hfailed : rt.status = .failed := by
    by_contra hx
    have := retry_task_not_failed rnow rav ratt rid rs rt hrt hx
    rw [this] at hok
    simp at hok
  have hlt : rt.retry_count < rt.max_retries := by
    by_contra hx
    have hge : rt.max_retries ≤ rt.retry_count := Nat.le_of_not_lt hx
    have := retry_task_exhausted rnow rav ratt rid rs rt hrt hfailed hge
    rw [this] at hok
    simp at hok
  refine ⟨?_, ?_, ?_, ?_, hlt, ?_⟩
  · refine @tasksInv_run (fun u => u.retry_count ≤ u.max_retries)
      ?_ ?_ ?_ ops (initState agents) (wf_initState agents) ?_ t ht
    · intro now id aid ag td gid prio
      simp
    · intro now st r e m v ih
      simpa using ih
    · intro now v ih hf hl
      exact Nat.succ_le_of_lt hl
    · intro v hv
      simp [initState] at hv
  · unfold create_task at hcreate
    cases hfa : findAgent cs caid with
    | none => rw [hfa] at hcreate; simp at hcreate
    | some ag =>
        rw [hfa] at hcreate
        dsimp only at hcreate
        have h1 := congrArg Prod.fst hcreate
        simp at h1
        rw [← h1]
        simp
  · rw [getTask_update_self unow uid ust ur ue um us u hu]
    simp
  · rw [getTask_delegate_other dnow dav datt daid dtd dgid ds did hdne]
  · have hrmem : rt ∈ rs.tasks := List.mem_of_find?_eq_some hrt
    have hrid : rt.task_id = rid := by
      simpa using List.find?_some (show rs.tasks.find? (fun v => v.task_id == rid) = some rt from hrt)
    have hlt_id : rid < rs.nextId := by
      have := hwf.1 rt hrmem
      rwa [hrid] at this
    rw [retry_task_main rnow rav ratt rid rs rt hrt hfailed hlt]
    set s1 : EngineState := { rs with tasks := rs.tasks.map (fun u =>
      if u.task_id == rid then
        { u with retry_count := u.retry_count + 1, status := .pending,
                 error := none, updated_at := rnow }
      else u) } with hs1
    have hnext1 : s1.nextId = rs.nextId := by rw [hs1]
    have hne1 : rid ≠ s1.nextId := by
      rw [hnext1]
      exact Nat.ne_of_lt hlt_id
    rw [getTask_delegate_other rnow rav ratt rt.agent_id rt.task_data
      rt.group_id s1 rid hne1, hs1,
      getTask_retryInc_self rnow rs rid rt hrt]
    rfl

/-- Witness for C5: a concrete run, creation, status update, delegation and
successful retry exhibiting each conjunct. -/
theorem C5_retry_count_invariant_witness :
    wtPending.retry_count ≤ wtPending.max_retries
    ∧ wtPending.retry_count = 0
    ∧ (getTask (update_task_status 1 0 .inProgress none none none
        wsPending).2 0).map Task.retry_count = some wtPending.retry_count
    ∧ (getTask (delegate_task 2 false .timeoutExn 1 {} none wsPending).2 0).map
        Task.retry_count = (getTask wsPending 0).map Task.retry_count
    ∧ wtFailed.retry_count < wtFailed.max_retries
    ∧ (getTask (retry_task 5 false .timeoutExn 0 wsFailed).2 0).map
        Task.retry_count = some (wtFailed.retry_count + 1) :=
  C5_retry_count_invariant [wAgent] [.createOp 0 1 {} none 1] wtPending
    (by decide)
    0 1 {} none 1 wsEmpty wsPending wtPending rfl
    1 0 .inProgress none none none wsPending wtPending rfl
    2 false .timeoutExn 1 {} none wsPending 0 (by decide)
    5 false .timeoutExn 0 wsFailed wtFailed (newTaskDoc 5 1 1 wAgent {} none 1)
    ⟨by unfold IdBound; decide, by unfold IdsNodup; decide⟩
    rfl rfl

/-- Claim C6 fails: a second `in_progress` update overwrites `started_at`
(1 becomes 3), and a transition into `assigned` never sets it. -/
def c6ops : List Op :=
  [.createOp 0 1 {} none 1,
   .updateStatusOp 1 0 .inProgress none none none]

def c6state1 : EngineState := run c6ops (initState [wAgent])

def c6state2 : EngineState :=
  (update_task_status 3 0 .inProgress none none none c6state1).2

def c6stateAssigned : EngineState :=
  (update_task_status 1 0 .assigned none none none
    (run [.createOp 0 1 {} none 1] (initState [wAgent]))).2

/-- Counterexample to claim C6: `started_at` is first `some 1`, yet a later
`updateStatus` call changes it to `some 3`; and entering `assigned` leaves
`started_at` unset. -/
theorem C6_counterexample :
    (getTask c6state1 0).map Task.started_at = some (some 1)
    ∧ (getTask c6state2 0).map Task.started_at = some (some 3)
    ∧ (some 3 : Option Nat) ≠ some 1
    ∧ (getTask c6stateAssigned 0).map Task.started_at = some none := by
  decide

/-- Claim C6, amended: `updateStatus` sets `started_at := now` on every
update whose status is `in_progress` (the not-already-set guard inspects
the update payload, never the stored task, so earlier values are
overwritten); an update to any other status — including `assigned` — leaves
`started_at` exactly as stored; in particular a set `started_at` is never
cleared. -/
theorem C6_started_at_behaviour (now : Nat) (id : Nat) (st : TaskStatus)
    (r e m : Option String) (s : EngineState) (t : Task)
    (hu : getTask s id = some t) :
    (st = .inProgress →
      (getTask (update_task_status now id st r e m s).2 id).map Task.started_at
        = some (some now))
    ∧ (st ≠ .inProgress →
      (getTask (update_task_status now id st r e m s).2 id).map Task.started_at
        = some t.started_at)
    ∧ (t.started_at.isSome = true →
      (getTask (update_task_status now id st r e m s).2 id).map
        (fun v => v.started_at.isSome) = some true) := by
  have hself := getTask_update_self now id st r e m s t hu
  refine ⟨?_, ?_, ?_⟩
  · intro h
    rw [hself]
    simp [applyStatusUpdate_started_at, if_pos h]
  · intro h
    rw [hself]
    simp [applyStatusUpdate_started_at, if_neg h]
  · intro h
    rw [hself]
    by_cases hip : st = .inProgress
    · simp [applyStatusUpdate_started_at, if_pos hip]
    · simp [applyStatusUpdate_started_at, if_neg hip, h]

/-- Witness for the amended C6: concrete updates on a stored task showing
the overwrite on `in_progress`, the no-op on `assigned`, and preservation
of a set value. -/
theorem C6_started_at_behaviour_witness :
    (getTask (update_task_status 3 0 .inProgress none none none
      c6state1).2 0).map Task.started_at = some (some 3)
    ∧ (getTask (update_task_status 4 0 .assigned none none none
        c6state1).2 0).map Task.started_at
        = some ((applyStatusUpdate 1 .inProgress none none none
            wtPending).started_at)
    ∧ (getTask (update_task_status 4 0 .assigned none none none
        c6state1).2 0).map (fun v => v.started_at.isSome) = some true :=
  ⟨(C6_started_at_behaviour 3 0 .inProgress none none none c6state1
      (applyStatusUpdate 1 .inProgress none none none wtPending)
      (by decide)).1 rfl,
   (C6_started_at_behaviour 4 0 .assigned none none none c6state1
      (applyStatusUpdate 1 .inProgress none none none wtPending)
      (by decide)).2.1 (by decide),
   (C6_started_at_behaviour 4 0 .assigned none none none c6state1
      (applyStatusUpdate 1 .inProgress none none none wtPending)
      (by decide)).2.2 (by decide)⟩

/-- First component of a delegate result as an option, for inspecting the
returned task. -/
def okTask : Except EngineError Task → Option Task
  | .ok t => some t
  | .error _ => none

def c2res : Except EngineError Task × EngineState :=
  delegate_task 0 false .timeoutExn 1 {} none (initState [wAgent])

/-- Counterexample to claim C2: with the probe down, `delegate_task`
returns the creation-time snapshot — status `pending`, error unset — not a
task in `failed` state with a non-empty error; only the stored record is
`failed`. -/
theorem C2_counterexample :
    (okTask c2res.1).map Task.status = some .pending
    ∧ TaskStatus.pending ≠ .failed
    ∧ (okTask c2res.1).map Task.error = some none
    ∧ (getTask c2res.2 0).map Task.status = some .failed := by
  decide

/-- Claim C2, amended: when the target agent exists with an endpoint and
the liveness probe reports unavailable, `delegate` does not raise — it
returns normally and the stored record is transitioned to `failed` with
the non-empty error "Agent endpoint is not available" — but the returned
object is the creation-time snapshot, still `pending` with no error, not
the `failed` record. -/
theorem C2_probe_down_records_failure (now : Nat) (att : HttpResult)
    (aid : Int) (td : TaskData) (gid : Option String)
    (agents : List Agent) (ops : List Op) (ag : Agent) (ep : String)
    (hag : findAgent (run ops (initState agents)) aid = some ag)
    (hep : ag.endpoint = some ep) :
    (delegate_task now false att aid td gid (run ops (initState agents))).1
        = .ok (newTaskDoc now (run ops (initState agents)).nextId aid ag td gid 1)
    ∧ (newTaskDoc now (run ops (initState agents)).nextId aid ag td gid 1).status
        = .pending
    ∧ (newTaskDoc now (run ops (initState agents)).nextId aid ag td gid 1).error
        = none
    ∧ (getTask (delegate_task now false att aid td gid
          (run ops (initState agents))).2
        (run ops (initState agents)).nextId).map Task.status = some .failed
    ∧ (getTask (delegate_task now false att aid td gid
          (run ops (initState agents))).2
        (run ops (initState agents)).nextId).map Task.error
        = some (some "Agent endpoint is not available")
    ∧ "Agent endpoint is not available" ≠ "" := by
  set s := run ops (initState agents) with hs
  have hwf : StateWF s := by
    rw [hs]
    exact wf_run ops (initState agents) (wf_initState agents)
  have hafter := getTask_afterCreate_self now aid ag td gid s hwf.1
  rw [delegate_probe_down now att aid td gid s ag ep hag hep]
  refine ⟨rfl, rfl, rfl, ?_, ?_, by decide⟩
  · rw [getTask_update_self now s.nextId .failed none
      (some "Agent endpoint is not available") none
      (afterCreate now aid ag td gid s) _ hafter]
    rfl
  · rw [getTask_update_self now s.nextId .failed none
      (some "Agent endpoint is not available") none
      (afterCreate now aid ag td gid s) _ hafter]
    rfl

/-- Witness for the amended C2. -/
theorem C2_probe_down_records_failure_witness :
    (delegate_task 4 false .timeoutExn 1 {} none
        (run [] (initState [wAgent]))).1
      = .ok (newTaskDoc 4 (run [] (initState [wAgent])).nextId 1 wAgent {} none 1)
    ∧ (newTaskDoc 4 (run [] (initState [wAgent])).nextId 1 wAgent {} none 1).status
        = .pending
    ∧ (newTaskDoc 4 (run [] (initState [wAgent])).nextId 1 wAgent {} none 1).error
        = none
    ∧ (getTask (delegate_task 4 false .timeoutExn 1 {} none
          (run [] (initState [wAgent]))).2
        (run [] (initState [wAgent])).nextId).map Task.status
        = some .failed
    ∧ (getTask (delegate_task 4 false .timeoutExn 1 {} none
          (run [] (initState [wAgent]))).2
        (run [] (initState [wAgent])).nextId).map Task.error
        = some (some "Agent endpoint is not available")
    ∧ "Agent endpoint is not available" ≠ "" :=
  C2_probe_down_records_failure 4 .timeoutExn 1 {} none [wAgent] []
    wAgent "http://agent-a" rfl rfl

/-- Claim C10: delegating to an agent that exists but has no configured
endpoint raises the no-endpoint error, yet a fully-formed `pending` task
with a fresh id and zero retries has already been appended to the store
and is still there after the error. -/
theorem C10_no_endpoint_persists_task (now : Nat) (av : Bool)
    (att : HttpResult) (aid : Int) (td : TaskData) (gid : Option String)
    (agents : List Agent) (ops : List Op) (ag : Agent)
    (hag : findAgent (run ops (initState agents)) aid = some ag)
    (hep : ag.endpoint = none) :
    (delegate_task now av att aid td gid (run ops (initState agents))).1
        = .error (.noEndpoint aid)
    ∧ (delegate_task now av att aid td gid (run ops (initState agents))).2.tasks
        = (run ops (initState agents)).tasks
          ++ [newTaskDoc now (run ops (initState agents)).nextId aid ag td gid 1]
    ∧ (newTaskDoc now (run ops (initState agents)).nextId aid ag td gid 1).status
        = .pending
    ∧ (newTaskDoc now (run ops (initState agents)).nextId aid ag td gid 1).retry_count
        = 0
    ∧ (∀ u ∈ (run ops (initState agents)).tasks,
        u.task_id ≠ (run ops (initState agents)).nextId)
    ∧ getTask (delegate_task now av att aid td gid
          (run ops (initState agents))).2
        (run ops (initState agents)).nextId
        = some (newTaskDoc now (run ops (initState agents)).nextId aid ag td gid 1) := by
  set s := run ops (initState agents) with hs
  have hwf : StateWF s := by
    rw [hs]
    exact wf_run ops (initState agents) (wf_initState agents)
  rw [delegate_no_endpoint now av att aid td gid s ag hag hep]
  refine ⟨rfl, rfl, rfl, rfl, ?_, ?_⟩
  · intro u hu
    exact Nat.ne_of_lt (hwf.1 u hu)
  · exact getTask_afterCreate_self now aid ag td gid s hwf.1

def wAgentNoEp : Agent := { token_id := 2, name := some "Agent B", endpoint := none }

/-- Witness for C10: a concrete delegation to an endpoint-less agent. -/
theorem C10_no_endpoint_persists_task_witness :
    (delegate_task 0 true .timeoutExn 2 {} none
        (run [] (initState [wAgentNoEp]))).1
      = .error (.noEndpoint 2)
    ∧ (delegate_task 0 true .timeoutExn 2 {} none
          (run [] (initState [wAgentNoEp]))).2.tasks
        = (run [] (initState [wAgentNoEp])).tasks
          ++ [newTaskDoc 0 (run [] (initState [wAgentNoEp])).nextId 2 wAgentNoEp {} none 1]
    ∧ (newTaskDoc 0 (run [] (initState [wAgentNoEp])).nextId 2 wAgentNoEp {} none 1).status
        = .pending
    ∧ (newTaskDoc 0 (run [] (initState [wAgentNoEp])).nextId 2 wAgentNoEp {} none 1).retry_count
        = 0
    ∧ (∀ u ∈ (run [] (initState [wAgentNoEp])).tasks,
        u.task_id ≠ (run [] (initState [wAgentNoEp])).nextId)
    ∧ getTask (delegate_task 0 true .timeoutExn 2 {} none
          (run [] (initState [wAgentNoEp]))).2
        (run [] (initState [wAgentNoEp])).nextId
        = some (newTaskDoc 0 (run [] (initState [wAgentNoEp])).nextId 2 wAgentNoEp {} none 1) :=
  C10_no_endpoint_persists_task 0 true .timeoutExn 2 {} none [wAgentNoEp] []
    wAgentNoEp rfl rfl

/-- Claim C9: a successful `retry` creates a second, distinct task record
under a fresh id; the value returned to the caller is that new task's
creation snapshot (id fresh, retry counter zero, snapshot status
`pending`); the new stored record's status is derived from its own
delegation attempt (`failed` on a down probe, `assigned` on transport
success, `pending` on a swallowed transport failure) with retry counter
zero; and the original task remains in the store reset to `pending` with
its retry counter incremented and its error cleared. -/
theorem C9_retry_redelegates_fresh_task (now : Nat) (av : Bool)
    (att : HttpResult) (id : Nat) (agents : List Agent) (ops : List Op)
    (t : Task) (ag : Agent) (ep : String)
    (ht : getTask (run ops (initState agents)) id = some t)
    (hst : t.status = .failed)
    (hlt : t.retry_count < t.max_retries)
    (hag : findAgent (run ops (initState agents)) t.agent_id = some ag)
    (hep : ag.endpoint = some ep) :
    (retry_task now av att id (run ops (initState agents))).1
        = .ok (newTaskDoc now (run ops (initState agents)).nextId
            t.agent_id ag t.task_data t.group_id 1)
    ∧ (run ops (initState agents)).nextId ≠ id
    ∧ (newTaskDoc now (run ops (initState agents)).nextId
        t.agent_id ag t.task_data t.group_id 1).task_id
        = (run ops (initState agents)).nextId
    ∧ (newTaskDoc now (run ops (initState agents)).nextId
        t.agent_id ag t.task_data t.group_id 1).retry_count = 0
    ∧ (newTaskDoc now (run ops (initState agents)).nextId
        t.agent_id ag t.task_data t.group_id 1).status = .pending
    ∧ (getTask (retry_task now av att id (run ops (initState agents))).2 id).map
        Task.status = some .pending
    ∧ (getTask (retry_task now av att id (run ops (initState agents))).2 id).map
        Task.retry_count = some (t.retry_count + 1)
    ∧ (getTask (retry_task now av att id (run ops (initState agents))).2 id).map
        Task.error = some none
    ∧ (getTask (retry_task now av att id (run ops (initState agents))).2
        (run ops (initState agents)).nextId).map Task.status
        = some (if av = false then TaskStatus.failed
                else match send_task_result ep att with
                     | .ok _ => TaskStatus.assigned
                     | .error _ => TaskStatus.pending)
    ∧ (getTask (retry_task now av att id (run ops (initState agents))).2
        (run ops (initState agents)).nextId).map Task.retry_count = some 0 := by
  set s := run ops (initState agents) with hs
  have hwf : StateWF s := by
    rw [hs]
    exact wf_run ops (initState agents) (wf_initState agents)
  have htmem : t ∈ s.tasks := List.mem_of_find?_eq_some ht
  have htid : t.task_id = id := by
    simpa using List.find?_some
      (show s.tasks.find? (fun v => v.task_id == id) = some t from ht)
  have hid_lt : id < s.nextId := by
    have := hwf.1 t htmem
    rwa [htid] at this
  rw [retry_task_main now av att id s t ht hst hlt]
  set s1 : EngineState := { s with tasks := s.tasks.map (fun u =>
    if u.task_id == id then
      { u with retry_count := u.retry_count + 1, status := .pending,
               error := none, updated_at := now }
    else u) } with hs1
  have hwf1 : StateWF s1 := by
    rw [hs1]
    exact wf_of_map s _ _ (fun u => by split <;> rfl) rfl rfl hwf
  have hnext1 : s1.nextId = s.nextId := by rw [hs1]
  have hag1 : findAgent s1 t.agent_id = some ag := hag
  have hne1 : id ≠ s1.nextId := by
    rw [hnext1]
    exact Nat.ne_of_lt hid_lt
  have horig : getTask s1 id = some
      { t with retry_count := t.retry_count + 1, status := .pending,
               error := none, updated_at := now } := by
    rw [hs1]
    exact getTask_retryInc_self now s id t ht
  have hafter1 := getTask_afterCreate_self now t.agent_id ag t.task_data
    t.group_id s1 hwf1.1
  have horig_after : getTask (delegate_task now av att t.agent_id t.task_data
      t.group_id s1).2 id = some
      { t with retry_count := t.retry_count + 1, status := .pending,
               error := none, updated_at := now } := by
    rw [getTask_delegate_other now av att t.agent_id t.task_data t.group_id
      s1 id hne1]
    exact horig
  refine ⟨?_, Ne.symm (Nat.ne_of_lt hid_lt), rfl, rfl, rfl, ?_, ?_, ?_, ?_, ?_⟩
  · cases av with
    | false =>
        rw [delegate_probe_down now att t.agent_id t.task_data t.group_id s1
          ag ep hag1 hep]
    | true =>
        cases hsr : send_task_result ep att with
        | ok resp =>
            rw [delegate_send_ok now att t.agent_id t.task_data t.group_id s1
              ag ep resp hag1 hep hsr]
        | error err =>
            rw [delegate_send_fail now att t.agent_id t.task_data t.group_id s1
              ag ep err hag1 hep hsr]
  · rw [horig_after]
    rfl
  · rw [horig_after]
    rfl
  · rw [horig_after]
    rfl
  · cases av with
    | false =>
        rw [delegate_probe_down now att t.agent_id t.task_data t.group_id s1
          ag ep hag1 hep]
        dsimp only
        rw [show s.nextId = s1.nextId from hnext1.symm,
          getTask_update_self now s1.nextId .failed none
            (some "Agent endpoint is not available") none
            (afterCreate now t.agent_id ag t.task_data t.group_id s1) _ hafter1]
        rfl
    | true =>
        cases hsr : send_task_result ep att with
        | ok resp =>
            rw [delegate_send_ok now att t.agent_id t.task_data t.group_id s1
              ag ep resp hag1 hep hsr]
            dsimp only
            rw [show s.nextId = s1.nextId from hnext1.symm,
              getTask_update_self now s1.nextId .assigned none none
                (some resp)
                (afterCreate now t.agent_id ag t.task_data t.group_id s1) _ hafter1]
            rfl
        | error err =>
            rw [delegate_send_fail now att t.agent_id t.task_data t.group_id s1
              ag ep err hag1 hep hsr]
            rw [show s.nextId = s1.nextId from hnext1.symm, hafter1]
            rfl
  · cases av with
    | false =>
        rw [delegate_probe_down now att t.agent_id t.task_data t.group_id s1
          ag ep hag1 hep]
        dsimp only
        rw [show s.nextId = s1.nextId from hnext1.symm,
          getTask_update_self now s1.nextId .failed none
            (some "Agent endpoint is not available") none
            (afterCreate now t.agent_id ag t.task_data t.group_id s1) _ hafter1]
        rfl
    | true =>
        cases hsr : send_task_result ep att with
        | ok resp =>
            rw [delegate_send_ok now att t.agent_id t.task_data t.group_id s1
              ag ep resp hag1 hep hsr]
            dsimp only
            rw [show s.nextId = s1.nextId from hnext1.symm,
              getTask_update_self now s1.nextId .assigned none none
                (some resp)
                (afterCreate now t.agent_id ag t.task_data t.group_id s1) _ hafter1]
            rfl
        | error err =>
            rw [delegate_send_fail now att t.agent_id t.task_data t.group_id s1
              ag ep err hag1 hep hsr]
            rw [show s.nextId = s1.nextId from hnext1.symm, hafter1]
            rfl

def c9wOps : List Op := [.delegateOp 0 false .timeoutExn 1 {} none]

/-- Agent `wAgent` after `_update_agent_stats` has recorded the failed
delegation of `c9wOps`. -/
def c9wAgent : Agent := { wAgent with failed_tasks := 1, total_tasks := 1 }

def c9wTask : Task :=
  applyStatusUpdate 0 .failed none (some "Agent endpoint is not available")
    none (newTaskDoc 0 0 1 wAgent {} none 1)

/-- Witness for C9: retrying the concrete failed task of a concrete run,
with the probe again down, yields the fresh task 1 while task 0 is reset
to `pending` with its counter at one. -/
theorem C9_retry_redelegates_fresh_task_witness :
    (retry_task 7 false .timeoutExn 0 (run c9wOps (initState [wAgent]))).1
        = .ok (newTaskDoc 7 (run c9wOps (initState [wAgent])).nextId
            c9wTask.agent_id c9wAgent c9wTask.task_data c9wTask.group_id 1)
    ∧ (run c9wOps (initState [wAgent])).nextId ≠ 0
    ∧ (newTaskDoc 7 (run c9wOps (initState [wAgent])).nextId
        c9wTask.agent_id c9wAgent c9wTask.task_data c9wTask.group_id 1).task_id
        = (run c9wOps (initState [wAgent])).nextId
    ∧ (newTaskDoc 7 (run c9wOps (initState [wAgent])).nextId
        c9wTask.agent_id c9wAgent c9wTask.task_data c9wTask.group_id 1).retry_count = 0
    ∧ (newTaskDoc 7 (run c9wOps (initState [wAgent])).nextId
        c9wTask.agent_id c9wAgent c9wTask.task_data c9wTask.group_id 1).status = .pending
    ∧ (getTask (retry_task 7 false .timeoutExn 0
        (run c9wOps (initState [wAgent]))).2 0).map Task.status = some .pending
    ∧ (getTask (retry_task 7 false .timeoutExn 0
        (run c9wOps (initState [wAgent]))).2 0).map Task.retry_count
        = some (c9wTask.retry_count + 1)
    ∧ (getTask (retry_task 7 false .timeoutExn 0
        (run c9wOps (initState [wAgent]))).2 0).map Task.error = some none
    ∧ (getTask (retry_task 7 false .timeoutExn 0
        (run c9wOps (initState [wAgent]))).2
        (run c9wOps (initState [wAgent])).nextId).map Task.status
        = some TaskStatus.failed
    ∧ (getTask (retry_task 7 false .timeoutExn 0
        (run c9wOps (initState [wAgent]))).2
        (run c9wOps (initState [wAgent])).nextId).map Task.retry_count = some 0 :=
  C9_retry_redelegates_fresh_task 7 false .timeoutExn 0 [wAgent] c9wOps
    c9wTask c9wAgent "http://agent-a" (by decide) rfl (by decide) (by decide) rfl

/-! ### Rate limiter: window arithmetic helpers -/

theorem prune_filter (A : List Int) (c c' : Int) (h : c ≤ c') :
    pruneWindow c' (A.filter (fun x => decide (c < x)))
      = A.filter (fun x => decide (c' < x)) := by
  unfold pruneWindow
  rw [List.filter_filter]
  refine List.filter_congr ?_
  intro x _
  by_cases h1 : c' < x
  · have h2 : c < x := lt_of_le_of_lt h h1
    simp [h1, h2]
  · simp [h1]

theorem prune_append_new (A : List Int) (c n : Int) (h : c < n) :
    (A ++ [n]).filter (fun x => decide (c < x))
      = A.filter (fun x => decide (c < x)) ++ [n] := by
  rw [List.filter_append]
  simp [h]

theorem countWindow_append (w t : Int) (A : List Int) (n : Int) :
    countWindow w t (A ++ [n])
      = countWindow w t A + (if t - w < n ∧ n ≤ t then 1 else 0) := by
  unfold countWindow
  rw [List.countP_append]
  congr 1
  by_cases hwin : t - w < n ∧ n ≤ t
  · simp [List.countP_cons, hwin]
  · simp [List.countP_cons, hwin]

/-- The key step: appending an admitted timestamp `n` keeps every rolling
`w`-window count at or below `limit`, provided the pruned ledger the
admission check inspected (all retained stamps above a cutoff `c ≤ n - w`)
had length strictly below `limit`. -/
theorem countWindow_append_le (w : Int) (limit : Nat) (A : List Int)
    (c n t : Int) (hcn : c ≤ n - w) (hA : countWindow w t A ≤ limit)
    (hlen : (A.filter (fun x => decide (c < x))).length < limit) :
    countWindow w t (A ++ [n]) ≤ limit := by
  rw [countWindow_append]
  by_cases hwin : t - w < n ∧ n ≤ t
  · rw [if_pos hwin]
    have key : countWindow w t A ≤ (A.filter (fun x => decide (c < x))).length := by
      unfold countWindow
      rw [← List.countP_eq_length_filter]
      refine List.countP_mono_left ?_
      intro x _ hx
      have hx' : t - w < x ∧ x ≤ t := by simpa using hx
      have : c < x := by
        have h1 : n - w ≤ t - w := by omega
        have : c ≤ t - w := le_trans hcn h1
        omega
      simpa using this
    omega
  · rw [if_neg hwin]
    simpa using hA

/-- The timestamps of a sorted request sequence are all at least the
head. -/
theorem sorted_headD_le (nows : List Int)
    (hsort : nows.Pairwise (fun a b => a ≤ b)) :
    ∀ n ∈ nows, nows.headD 0 ≤ n := by
  cases nows with
  | nil => intro n hn; simp at hn
  | cons x l =>
      intro n hn
      rcases List.mem_cons.1 hn with rfl | hn
      · simp
      · simpa using (List.pairwise_cons.1 hsort).1 n hn

/-! ### Rate limiter: run equations -/

theorem rl1_run_cons_admitted (rpm rph : Nat) (n : Int) (rest : List Int)
    (s s1 : RL1State) (h : rl1_dispatch rpm rph n s = (.admitted, s1)) :
    rl1_run rpm rph (n :: rest) s
      = (n :: (rl1_run rpm rph rest s1).1, (rl1_run rpm rph rest s1).2) := by
  rw [rl1_run, h]

theorem rl1_run_cons_rejectedMinute (rpm rph : Nat) (n ra : Int)
    (rest : List Int) (s s1 : RL1State)
    (h : rl1_dispatch rpm rph n s = (.rejectedMinute ra, s1)) :
    rl1_run rpm rph (n :: rest) s = rl1_run rpm rph rest s1 := by
  rw [rl1_run, h]

theorem rl1_run_cons_rejectedHour (rpm rph : Nat) (n ra : Int)
    (rest : List Int) (s s1 : RL1State)
    (h : rl1_dispatch rpm rph n s = (.rejectedHour ra, s1)) :
    rl1_run rpm rph (n :: rest) s = rl1_run rpm rph rest s1 := by
  rw [rl1_run, h]

theorem rl1_run_snd (rpm rph : Nat) (n : Int) (rest : List Int)
    (s : RL1State) :
    (rl1_run rpm rph (n :: rest) s).2
      = (rl1_run rpm rph rest (rl1_dispatch rpm rph n s).2).2 := by
  rcases h : rl1_dispatch rpm rph n s with ⟨r, s1⟩
  cases r with
  | admitted => rw [rl1_run_cons_admitted rpm rph n rest s s1 h]
  | rejectedMinute ra => rw [rl1_run_cons_rejectedMinute rpm rph n ra rest s s1 h]
  | rejectedHour ra => rw [rl1_run_cons_rejectedHour rpm rph n ra rest s s1 h]

theorem rl2_run_cons_admitted (tier : String) (n : Int) (rest : List Int)
    (s s1 : RL2State) (h : apply_rate_limit tier n s = (.admitted, s1)) :
    rl2_run tier (n :: rest) s
      = (n :: (rl2_run tier rest s1).1, (rl2_run tier rest s1).2) := by
  rw [rl2_run, h]

theorem rl2_run_cons_rejected (tier : String) (n ra : Int) (rest : List Int)
    (s s1 : RL2State) (h : apply_rate_limit tier n s = (.rejected ra, s1)) :
    rl2_run tier (n :: rest) s = rl2_run tier rest s1 := by
  rw [rl2_run, h]

theorem rl2_run_snd (tier : String) (n : Int) (rest : List Int)
    (s : RL2State) :
    (rl2_run tier (n :: rest) s).2
      = (rl2_run tier rest (apply_rate_limit tier n s).2).2 := by
  rcases h : apply_rate_limit tier n s with ⟨r, s1⟩
  cases r with
  | admitted => rw [rl2_run_cons_admitted tier n rest s s1 h]
  | rejected ra => rw [rl2_run_cons_rejected tier n ra rest s s1 h]

theorem tier_limits_pos (tier : String) :
    1 ≤ (tier_limits tier).1 ∧ 1 ≤ (tier_limits tier).2 := by
  unfold tier_limits
  split
  · exact ⟨by norm_num, by norm_num⟩
  · split
    · exact ⟨by norm_num, by norm_num⟩
    · split
      · exact ⟨by norm_num, by norm_num⟩
      · exact ⟨by norm_num, by norm_num⟩

/-- Rolling-window bound for `RateLimitMiddleware`: running sorted
requests from a state whose ledgers hold exactly the admitted timestamps
above their respective cutoffs keeps every rolling 60- and 3600-window
count of admitted requests within the quotas. -/
theorem rl1_run_window_bound (rpm rph : Nat) (hm : 1 ≤ rpm) (hh : 1 ≤ rph) :
    ∀ (nows : List Int) (s : RL1State) (A : List Int) (cm ch : Int),
      nows.Pairwise (fun a b => a ≤ b) →
      (∀ n ∈ nows, cm ≤ n - 60) →
      (∀ n ∈ nows, ch ≤ n - 3600) →
      s.minute_requests.getD [] = A.filter (fun x => decide (cm < x)) →
      s.hour_requests.getD [] = A.filter (fun x => decide (ch < x)) →
      (∀ t : Int, countWindow 60 t A ≤ rpm) →
      (∀ t : Int, countWindow 3600 t A ≤ rph) →
      ∀ t : Int,
        countWindow 60 t (A ++ (rl1_run rpm rph nows s).1) ≤ rpm
        ∧ countWindow 3600 t (A ++ (rl1_run rpm rph nows s).1) ≤ rph := by
  intro nows
  induction nows with
  | nil =>
      intro s A cm ch _ _ _ _ _ hA60 hA36 t
      constructor
      · simpa [rl1_run] using hA60 t
      · simpa [rl1_run] using hA36 t
  | cons n rest ih =>
      intro s A cm ch hpw hcm hch hme hhe hA60 hA36
      have hcmn : cm ≤ n - 60 := hcm n (List.mem_cons_self n rest)
      have hchn : ch ≤ n - 3600 := hch n (List.mem_cons_self n rest)
      have hrest : ∀ x ∈ rest, n ≤ x :=
        fun x hx => (List.pairwise_cons.1 hpw).1 x hx
      have hpw' : rest.Pairwise (fun a b => a ≤ b) :=
        (List.pairwise_cons.1 hpw).2
      have hcm60 : ∀ x ∈ rest, (n - 60 : Int) ≤ x - 60 := by
        intro x hx
        have := hrest x hx
        omega
      have hch3600 : ∀ x ∈ rest, (n - 3600 : Int) ≤ x - 3600 := by
        intro x hx
        have := hrest x hx
        omega
      have hcm_rest : ∀ x ∈ rest, cm ≤ x - 60 :=
        fun x hx => hcm x (List.mem_cons_of_mem n hx)
      have hch_rest : ∀ x ∈ rest, ch ≤ x - 3600 :=
        fun x hx => hch x (List.mem_cons_of_mem n hx)
      have happ : ∀ (X : List Int),
          A ++ n :: X = (A ++ [n]) ++ X :=
        fun X => (List.append_assoc A [n] X).symm
      cases hm0 : s.minute_requests with
      | none =>
          have hAcm : A.filter (fun x => decide (cm < x)) = [] := by
            rw [← hme, hm0]
            rfl
          have hm60 : ∀ t : Int, countWindow 60 t (A ++ [n]) ≤ rpm := by
            intro t
            refine countWindow_append_le 60 rpm A cm n t hcmn (hA60 t) ?_
            rw [hAcm]
            simpa using hm
          have hmchar : (A ++ [n]).filter (fun x => decide (cm < x)) = [n] := by
            rw [prune_append_new A cm n (by omega), hAcm]
            rfl
          cases hh0 : s.hour_requests with
          | none =>
              have hAch : A.filter (fun x => decide (ch < x)) = [] := by
                rw [← hhe, hh0]
                rfl
              have hadmit : rl1_dispatch rpm rph n s =
                  (.admitted, { minute_requests := some ([] ++ [n]),
                                hour_requests := some ([] ++ [n]) }) := by
                unfold rl1_dispatch check_rate_limit record_request
                rw [hm0, hh0]
                rfl
              rw [rl1_run_cons_admitted rpm rph n rest s _ hadmit]
              intro t
              rw [happ]
              refine ih _ (A ++ [n]) cm ch hpw' hcm_rest hch_rest ?_ ?_ hm60 ?_ t
              · rw [hmchar]
                rfl
              · rw [prune_append_new A ch n (by omega), hAch]
                rfl
              · intro u
                refine countWindow_append_le 3600 rph A ch n u hchn (hA36 u) ?_
                rw [hAch]
                simpa using hh
          | some lh =>
              have hlh : lh = A.filter (fun x => decide (ch < x)) := by
                rw [← hhe, hh0]
                rfl
              have hph : pruneWindow (n - 3600) lh
                  = A.filter (fun x => decide (n - 3600 < x)) := by
                rw [hlh]
                exact prune_filter A ch (n - 3600) hchn
              by_cases hrej : rph ≤ (pruneWindow (n - 3600) lh).length
              · have hadmit : rl1_dispatch rpm rph n s =
                    (.rejectedHour ((pruneWindow (n - 3600) lh).headD 0 - (n - 3600)),
                     { minute_requests := none,
                       hour_requests := some (pruneWindow (n - 3600) lh) }) := by
                  unfold rl1_dispatch check_rate_limit
                  rw [hm0, hh0]
                  dsimp only
                  rw [if_pos hrej]
                rw [rl1_run_cons_rejectedHour rpm rph n _ rest s _ hadmit]
                intro t
                refine ih _ A cm (n - 3600) hpw' hcm_rest hch3600 ?_ ?_ hA60 ?_ t
                · rw [← hAcm]
                  rfl
                · rw [hph]
                  rfl
                · intro u
                  have : countWindow 3600 u A ≤ rph := hA36 u
                  exact this
              · have hadmit : rl1_dispatch rpm rph n s =
                    (.admitted,
                     { minute_requests := some ([] ++ [n]),
                       hour_requests := some (pruneWindow (n - 3600) lh ++ [n]) }) := by
                  unfold rl1_dispatch check_rate_limit record_request
                  rw [hm0, hh0]
                  dsimp only
                  rw [if_neg hrej]
                  rfl
                rw [rl1_run_cons_admitted rpm rph n rest s _ hadmit]
                intro t
                rw [happ]
                refine ih _ (A ++ [n]) cm (n - 3600) hpw' hcm_rest hch3600
                  ?_ ?_ hm60 ?_ t
                · rw [hmchar]
                  rfl
                · rw [prune_append_new A (n - 3600) n (by omega), hph]
                  rfl
                · intro u
                  refine countWindow_append_le 3600 rph A (n - 3600) n u
                    (le_refl _) (hA36 u) ?_
                  rw [← hph]
                  exact Nat.lt_of_not_le hrej
      | some lm =>
          have hlm : lm = A.filter (fun x => decide (cm < x)) := by
            rw [← hme, hm0]
            rfl
          have hpm : pruneWindow (n - 60) lm
              = A.filter (fun x => decide (n - 60 < x)) := by
            rw [hlm]
            exact prune_filter A cm (n - 60) hcmn
          by_cases hrejm : rpm ≤ (pruneWindow (n - 60) lm).length
          · have hadmit : rl1_dispatch rpm rph n s =
                (.rejectedMinute ((pruneWindow (n - 60) lm).headD 0 - (n - 60)),
                 { s with minute_requests := some (pruneWindow (n - 60) lm) }) := by
              unfold rl1_dispatch check_rate_limit
              rw [hm0]
              dsimp only
              rw [if_pos hrejm]
            rw [rl1_run_cons_rejectedMinute rpm rph n _ rest s _ hadmit]
            intro t
            refine ih _ A (n - 60) ch hpw' hcm60 hch_rest ?_ ?_ hA60 hA36 t
            · rw [hpm]
              rfl
            · exact hhe
          · have hm60 : ∀ t : Int, countWindow 60 t (A ++ [n]) ≤ rpm := by
              intro t
              refine countWindow_append_le 60 rpm A (n - 60) n t
                (le_refl _) (hA60 t) ?_
              rw [← hpm]
              exact Nat.lt_of_not_le hrejm
            have hmchar : (A ++ [n]).filter (fun x => decide (n - 60 < x))
                = pruneWindow (n - 60) lm ++ [n] := by
              rw [prune_append_new A (n - 60) n (by omega), hpm]
            cases hh0 : s.hour_requests with
            | none =>
                have hAch : A.filter (fun x => decide (ch < x)) = [] := by
                  rw [← hhe, hh0]
                  rfl
                have hadmit : rl1_dispatch rpm rph n s =
                    (.admitted,
                     { minute_requests := some (pruneWindow (n - 60) lm ++ [n]),
                       hour_requests := some ([] ++ [n]) }) := by
                  unfold rl1_dispatch check_rate_limit record_request
                  rw [hm0, hh0]
                  dsimp only
                  rw [if_neg hrejm]
                  rfl
                rw [rl1_run_cons_admitted rpm rph n rest s _ hadmit]
                intro t
                rw [happ]
                refine ih _ (A ++ [n]) (n - 60) ch hpw' hcm60 hch_rest
                  ?_ ?_ hm60 ?_ t
                · rw [hmchar]
                  rfl
                · rw [prune_append_new A ch n (by omega), hAch]
                  rfl
                · intro u
                  refine countWindow_append_le 3600 rph A ch n u hchn (hA36 u) ?_
                  rw [hAch]
                  simpa using hh
            | some lh =>
                have hlh : lh = A.filter (fun x => decide (ch < x)) := by
                  rw [← hhe, hh0]
                  rfl
                have hph : pruneWindow (n - 3600) lh
                    = A.filter (fun x => decide (n - 3600 < x)) := by
                  rw [hlh]
                  exact prune_filter A ch (n - 3600) hchn
                by_cases hrejh : rph ≤ (pruneWindow (n - 3600) lh).length
                · have hadmit : rl1_dispatch rpm rph n s =
                      (.rejectedHour
                        ((pruneWindow (n - 3600) lh).headD 0 - (n - 3600)),
                       { minute_requests := some (pruneWindow (n - 60) lm),
                         hour_requests := some (pruneWindow (n - 3600) lh) }) := by
                    unfold rl1_dispatch check_rate_limit
                    rw [hm0, hh0]
                    dsimp only
                    rw [if_neg hrejm, if_pos hrejh]
                  rw [rl1_run_cons_rejectedHour rpm rph n _ rest s _ hadmit]
                  intro t
                  refine ih _ A (n - 60) (n - 3600) hpw' hcm60 hch3600
                    ?_ ?_ hA60 hA36 t
                  · rw [hpm]
                    rfl
                  · rw [hph]
                    rfl
                · have hadmit : rl1_dispatch rpm rph n s =
                      (.admitted,
                       { minute_requests := some (pruneWindow (n - 60) lm ++ [n]),
                         hour_requests := some (pruneWindow (n - 3600) lh ++ [n]) }) := by
                    unfold rl1_dispatch check_rate_limit record_request
                    rw [hm0, hh0]
                    dsimp only
                    rw [if_neg hrejm, if_neg hrejh]
                    rfl
                  rw [rl1_run_cons_admitted rpm rph n rest s _ hadmit]
                  intro t
                  rw [happ]
                  refine ih _ (A ++ [n]) (n - 60) (n - 3600) hpw' hcm60 hch3600
                    ?_ ?_ hm60 ?_ t
                  · rw [hmchar]
                    rfl
                  · rw [prune_append_new A (n - 3600) n (by omega), hph]
                    rfl
                  · intro u
                    refine countWindow_append_le 3600 rph A (n - 3600) n u
                      (le_refl _) (hA36 u) ?_
                    rw [← hph]
                    exact Nat.lt_of_not_le hrejh

/-- Rolling-window bound for `APIKeyRateLimitMiddleware`, for any tier. -/
theorem rl2_run_window_bound (tier : String) :
    ∀ (nows : List Int) (s : RL2State) (A : List Int) (cm ch : Int),
      nows.Pairwise (fun a b => a ≤ b) →
      (∀ n ∈ nows, cm ≤ n - 60) →
      (∀ n ∈ nows, ch ≤ n - 3600) →
      s.minute = A.filter (fun x => decide (cm < x)) →
      s.hour = A.filter (fun x => decide (ch < x)) →
      (∀ t : Int, countWindow 60 t A ≤ (tier_limits tier).1) →
      (∀ t : Int, countWindow 3600 t A ≤ (tier_limits tier).2) →
      ∀ t : Int,
        countWindow 60 t (A ++ (rl2_run tier nows s).1) ≤ (tier_limits tier).1
        ∧ countWindow 3600 t (A ++ (rl2_run tier nows s).1)
            ≤ (tier_limits tier).2 := by
  intro nows
  induction nows with
  | nil =>
      intro s A cm ch _ _ _ _ _ hA60 hA36 t
      constructor
      · simpa [rl2_run] using hA60 t
      · simpa [rl2_run] using hA36 t
  | cons n rest ih =>
      intro s A cm ch hpw hcm hch hme hhe hA60 hA36
      have hcmn : cm ≤ n - 60 := hcm n (List.mem_cons_self n rest)
      have hchn : ch ≤ n - 3600 := hch n (List.mem_cons_self n rest)
      have hrest : ∀ x ∈ rest, n ≤ x :=
        fun x hx => (List.pairwise_cons.1 hpw).1 x hx
      have hpw' : rest.Pairwise (fun a b => a ≤ b) :=
        (List.pairwise_cons.1 hpw).2
      have hcm60 : ∀ x ∈ rest, (n - 60 : Int) ≤ x - 60 := by
        intro x hx
        have := hrest x hx
        omega
      have hch3600 : ∀ x ∈ rest, (n - 3600 : Int) ≤ x - 3600 := by
        intro x hx
        have := hrest x hx
        omega
      have hpm : pruneWindow (n - 60) s.minute
          = A.filter (fun x => decide (n - 60 < x)) := by
        rw [hme]
        exact prune_filter A cm (n - 60) hcmn
      have hph : pruneWindow (n - 3600) s.hour
          = A.filter (fun x => decide (n - 3600 < x)) := by
        rw [hhe]
        exact prune_filter A ch (n - 3600) hchn
      have happ : ∀ (X : List Int), A ++ n :: X = (A ++ [n]) ++ X :=
        fun X => (List.append_assoc A [n] X).symm
      by_cases hrejm : (tier_limits tier).1 ≤ (pruneWindow (n - 60) s.minute).length
      · have hadmit : apply_rate_limit tier n s =
            (.rejected 60, { minute := pruneWindow (n - 60) s.minute,
                             hour := pruneWindow (n - 3600) s.hour }) := by
          unfold apply_rate_limit
          dsimp only
          rw [if_pos hrejm]
        rw [rl2_run_cons_rejected tier n 60 rest s _ hadmit]
        intro t
        refine ih _ A (n - 60) (n - 3600) hpw' hcm60 hch3600 hpm hph hA60 hA36 t
      · by_cases hrejh : (tier_limits tier).2 ≤ (pruneWindow (n - 3600) s.hour).length
        · have hadmit : apply_rate_limit tier n s =
              (.rejected 3600, { minute := pruneWindow (n - 60) s.minute,
                                 hour := pruneWindow (n - 3600) s.hour }) := by
            unfold apply_rate_limit
            dsimp only
            rw [if_neg hrejm, if_pos hrejh]
          rw [rl2_run_cons_rejected tier n 3600 rest s _ hadmit]
          intro t
          refine ih _ A (n - 60) (n - 3600) hpw' hcm60 hch3600 hpm hph hA60 hA36 t
        · have hadmit : apply_rate_limit tier n s =
              (.admitted, { minute := pruneWindow (n - 60) s.minute ++ [n],
                            hour := pruneWindow (n - 3600) s.hour ++ [n] }) := by
            unfold apply_rate_limit
            dsimp only
            rw [if_neg hrejm, if_neg hrejh]
          rw [rl2_run_cons_admitted tier n rest s _ hadmit]
          intro t
          rw [happ]
          refine ih _ (A ++ [n]) (n - 60) (n - 3600) hpw' hcm60 hch3600
            ?_ ?_ ?_ ?_ t
          · rw [prune_append_new A (n - 60) n (by omega), hpm]
          · rw [prune_append_new A (n - 3600) n (by omega), hph]
          · intro u
            refine countWindow_append_le 60 (tier_limits tier).1 A (n - 60) n u
              (le_refl _) (hA60 u) ?_
            rw [← hpm]
            exact Nat.lt_of_not_le hrejm
          · intro u
            refine countWindow_append_le 3600 (tier_limits tier).2 A (n - 3600) n u
              (le_refl _) (hA36 u) ?_
            rw [← hph]
            exact Nat.lt_of_not_le hrejh

theorem check_len (now w : Int) (limit : Nat) (e : Option (List Int))
    (h : (e.getD []).length ≤ limit) :
    (((check_rate_limit now w limit e).1).getD []).length ≤ limit := by
  cases e with
  | none => exact h
  | some l =>
      unfold check_rate_limit
      dsimp only
      split
      · exact le_trans (by simpa using List.length_filter_le _ l) (by simpa using h)
      · exact le_trans (by simpa using List.length_filter_le _ l) (by simpa using h)

theorem check_pass_len (now w : Int) (limit : Nat) (e : Option (List Int))
    (hlim : 1 ≤ limit)
    (hpass : (check_rate_limit now w limit e).2 = none) :
    (((check_rate_limit now w limit e).1).getD []).length < limit := by
  cases e with
  | none => exact hlim
  | some l =>
      unfold check_rate_limit at hpass ⊢
      dsimp only at hpass ⊢
      by_cases hc : limit ≤ (pruneWindow (now - w) l).length
      · rw [if_pos hc] at hpass
        simp at hpass
      · rw [if_neg hc]
        simpa using Nat.lt_of_not_le hc

/-- One `RateLimitMiddleware` request keeps both ledger lengths within the
quotas. -/
theorem rl1_dispatch_len (rpm rph : Nat) (hm : 1 ≤ rpm) (hh : 1 ≤ rph)
    (n : Int) (s : RL1State)
    (h1 : (s.minute_requests.getD []).length ≤ rpm)
    (h2 : (s.hour_requests.getD []).length ≤ rph) :
    ((rl1_dispatch rpm rph n s).2.minute_requests.getD []).length ≤ rpm
    ∧ ((rl1_dispatch rpm rph n s).2.hour_requests.getD []).length ≤ rph := by
  rcases hc1 : check_rate_limit n 60 rpm s.minute_requests with ⟨m1, r1⟩
  have hm1 : (m1.getD []).length ≤ rpm := by
    have := check_len n 60 rpm s.minute_requests h1
    rw [hc1] at this
    exact this
  cases r1 with
  | some ra =>
      unfold rl1_dispatch
      rw [hc1]
      exact ⟨hm1, h2⟩
  | none =>
      rcases hc2 : check_rate_limit n 3600 rph s.hour_requests with ⟨h1e, r2⟩
      have hh1 : (h1e.getD []).length ≤ rph := by
        have := check_len n 3600 rph s.hour_requests h2
        rw [hc2] at this
        exact this
      cases r2 with
      | some ra =>
          unfold rl1_dispatch
          rw [hc1, hc2]
          exact ⟨hm1, hh1⟩
      | none =>
          have hpassm : (m1.getD []).length < rpm := by
            have := check_pass_len n 60 rpm s.minute_requests hm (by rw [hc1])
            rw [hc1] at this
            exact this
          have hpassh : (h1e.getD []).length < rph := by
            have := check_pass_len n 3600 rph s.hour_requests hh (by rw [hc2])
            rw [hc2] at this
            exact this
          unfold rl1_dispatch
          rw [hc1, hc2]
          dsimp only [record_request]
          constructor
          · simp only [Option.getD_some, List.length_append, List.length_cons,
              List.length_nil]
            omega
          · simp only [Option.getD_some, List.length_append, List.length_cons,
              List.length_nil]
            omega

theorem rl1_run_len (rpm rph : Nat) (hm : 1 ≤ rpm) (hh : 1 ≤ rph) :
    ∀ (nows : List Int) (s : RL1State),
      (s.minute_requests.getD []).length ≤ rpm →
      (s.hour_requests.getD []).length ≤ rph →
      ((rl1_run rpm rph nows s).2.minute_requests.getD []).length ≤ rpm
      ∧ ((rl1_run rpm rph nows s).2.hour_requests.getD []).length ≤ rph := by
  intro nows
  induction nows with
  | nil => intro s h1 h2; exact ⟨h1, h2⟩
  | cons n rest ih =>
      intro s h1 h2
      rw [rl1_run_snd rpm rph n rest s]
      exact ih _ (rl1_dispatch_len rpm rph hm hh n s h1 h2).1
        (rl1_dispatch_len rpm rph hm hh n s h1 h2).2

/-- One `APIKeyRateLimitMiddleware` request keeps both ledger lengths
within the tier quotas. -/
theorem rl2_admit_len (tier : String) (n : Int) (s : RL2State)
    (h1 : s.minute.length ≤ (tier_limits tier).1)
    (h2 : s.hour.length ≤ (tier_limits tier).2) :
    ((apply_rate_limit tier n s).2.minute).length ≤ (tier_limits tier).1
    ∧ ((apply_rate_limit tier n s).2.hour).length ≤ (tier_limits tier).2 := by
  have hpm : (pruneWindow (n - 60) s.minute).length ≤ (tier_limits tier).1 :=
    le_trans (by simpa using List.length_filter_le _ s.minute) h1
  have hph : (pruneWindow (n - 3600) s.hour).length ≤ (tier_limits tier).2 :=
    le_trans (by simpa using List.length_filter_le _ s.hour) h2
  unfold apply_rate_limit
  dsimp only
  by_cases hrejm : (tier_limits tier).1 ≤ (pruneWindow (n - 60) s.minute).length
  · rw [if_pos hrejm]
    exact ⟨hpm, hph⟩
  · rw [if_neg hrejm]
    by_cases hrejh : (tier_limits tier).2 ≤ (pruneWindow (n - 3600) s.hour).length
    · rw [if_pos hrejh]
      exact ⟨hpm, hph⟩
    · rw [if_neg hrejh]
      constructor
      · simp only [List.length_append, List.length_cons, List.length_nil]
        have := Nat.lt_of_not_le hrejm
        omega
      · simp only [List.length_append, List.length_cons, List.length_nil]
        have := Nat.lt_of_not_le hrejh
        omega

theorem rl2_run_len (tier : String) :
    ∀ (nows : List Int) (s : RL2State),
      s.minute.length ≤ (tier_limits tier).1 →
      s.hour.length ≤ (tier_limits tier).2 →
      ((rl2_run tier nows s).2.minute).length ≤ (tier_limits tier).1
      ∧ ((rl2_run tier nows s).2.hour).length ≤ (tier_limits tier).2 := by
  intro nows
  induction nows with
  | nil => intro s h1 h2; exact ⟨h1, h2⟩
  | cons n rest ih =>
      intro s h1 h2
      rw [rl2_run_snd tier n rest s]
      exact ih _ (rl2_admit_len tier n s h1 h2).1 (rl2_admit_len tier n s h1 h2).2

/-- Claim C1: under sequential invocation with non-decreasing clock
readings, neither middleware ever admits more than the per-minute quota of
one caller's requests inside any rolling 60-second window, nor more than
the per-hour quota inside any rolling 3600-second window; and at every
inspection point (after any prefix of the requests) each stored timestamp
list's length is at most its window's limit. -/
theorem C1_sliding_window_quota (rpm rph : Nat) (hm : 1 ≤ rpm)
    (hh : 1 ≤ rph) (tier : String) (nows pre suf : List Int)
    (_hsplit : nows = pre ++ suf)
    (hsort : nows.Pairwise (fun a b => a ≤ b)) (t : Int) :
    countWindow 60 t (rl1_run rpm rph nows rl1Init).1 ≤ rpm
    ∧ countWindow 3600 t (rl1_run rpm rph nows rl1Init).1 ≤ rph
    ∧ countWindow 60 t (rl2_run tier nows rl2Init).1 ≤ (tier_limits tier).1
    ∧ countWindow 3600 t (rl2_run tier nows rl2Init).1 ≤ (tier_limits tier).2
    ∧ ((rl1_run rpm rph pre rl1Init).2.minute_requests.getD []).length ≤ rpm
    ∧ ((rl1_run rpm rph pre rl1Init).2.hour_requests.getD []).length ≤ rph
    ∧ ((rl2_run tier pre rl2Init).2.minute).length ≤ (tier_limits tier).1
    ∧ ((rl2_run tier pre rl2Init).2.hour).length ≤ (tier_limits tier).2 := by
  have hhead := sorted_headD_le nows hsort
  have hb1 := rl1_run_window_bound rpm rph hm hh nows rl1Init []
    (nows.headD 0 - 60) (nows.headD 0 - 3600) hsort
    (fun n hn => by have := hhead n hn; omega)
    (fun n hn => by have := hhead n hn; omega)
    rfl rfl
    (fun u => by simp [countWindow])
    (fun u => by simp [countWindow]) t
  have hb2 := rl2_run_window_bound tier nows rl2Init []
    (nows.headD 0 - 60) (nows.headD 0 - 3600) hsort
    (fun n hn => by have := hhead n hn; omega)
    (fun n hn => by have := hhead n hn; omega)
    rfl rfl
    (fun u => by simp [countWindow])
    (fun u => by simp [countWindow]) t
  have hl1 := rl1_run_len rpm rph hm hh pre rl1Init
    (by simp [rl1Init]) (by simp [rl1Init])
  have hl2 := rl2_run_len tier pre rl2Init
    (by simp [rl2Init]) (by simp [rl2Init])
  exact ⟨by simpa using hb1.1, by simpa using hb1.2,
         by simpa using hb2.1, by simpa using hb2.2,
         hl1.1, hl1.2, hl2.1, hl2.2⟩

/-- Witness for C1: quotas one per minute and one per hour, the free tier,
and two simultaneous requests. -/
theorem C1_sliding_window_quota_witness :
    countWindow 60 0 (rl1_run 1 1 [0, 0] rl1Init).1 ≤ 1
    ∧ countWindow 3600 0 (rl1_run 1 1 [0, 0] rl1Init).1 ≤ 1
    ∧ countWindow 60 0 (rl2_run "free" [0, 0] rl2Init).1 ≤ (tier_limits "free").1
    ∧ countWindow 3600 0 (rl2_run "free" [0, 0] rl2Init).1 ≤ (tier_limits "free").2
    ∧ ((rl1_run 1 1 [0] rl1Init).2.minute_requests.getD []).length ≤ 1
    ∧ ((rl1_run 1 1 [0] rl1Init).2.hour_requests.getD []).length ≤ 1
    ∧ ((rl2_run "free" [0] rl2Init).2.minute).length ≤ (tier_limits "free").1
    ∧ ((rl2_run "free" [0] rl2Init).2.hour).length ≤ (tier_limits "free").2 :=
  C1_sliding_window_quota 1 1 (by decide) (by decide) "free" [0, 0] [0] [0]
    rfl (by decide) 0

/-- The minute ledger of a free-tier caller after sixty requests at time
0 (Scenario C's first minute of traffic). -/
def c7state : RL2State := (rl2_run "free" (List.replicate 60 0) rl2Init).2

/-- Counterexample to claim C7: on the tier middleware's admit path, the
61st free-tier request (at time 30, after 60 requests at time 0) is
rejected with the constant retry-after 60, while the oldest retained
timestamp's remaining distance to expiring out of the minute window is 30
— the hint does not equal that distance. -/
theorem C7_counterexample :
    (apply_rate_limit "free" 30 c7state).1 = .rejected 60
    ∧ (pruneWindow (30 - 60) c7state.minute).headD 0 - (30 - 60) = 30
    ∧ (60 : Int) ≠ 30 := by
  decide

/-- Claim C7, amended: in `RateLimitMiddleware` a rejection's retry-after
does equal the oldest retained timestamp's distance to expiring out of the
violated window (whose pruned list is nonempty); in
`APIKeyRateLimitMiddleware` the retry-after is instead the constant window
length — 60 for the minute window, 3600 for the hour window; and in the
Scenario-C run sixty admitted free-tier requests at time 0 make the 61st
request, at time 30, rejected with the strictly positive
retryAfterSeconds 60. -/
theorem C7_retry_after_hint
    (rpm1 rph1 : Nat) (hm1 : 1 ≤ rpm1) (now1 : Int) (s1 s1' : RL1State)
    (ra1 : Int) (h1 : rl1_dispatch rpm1 rph1 now1 s1 = (.rejectedMinute ra1, s1'))
    (rpm2 rph2 : Nat) (hh2 : 1 ≤ rph2) (now2 : Int) (s2 s2' : RL1State)
    (ra2 : Int) (h2 : rl1_dispatch rpm2 rph2 now2 s2 = (.rejectedHour ra2, s2'))
    (tier : String) (now3 : Int) (s3 s3' : RL2State) (ra3 : Int)
    (h3 : apply_rate_limit tier now3 s3 = (.rejected ra3, s3')) :
    pruneWindow (now1 - 60) (s1.minute_requests.getD []) ≠ []
    ∧ ra1 = (pruneWindow (now1 - 60) (s1.minute_requests.getD [])).headD 0
        - (now1 - 60)
    ∧ pruneWindow (now2 - 3600) (s2.hour_requests.getD []) ≠ []
    ∧ ra2 = (pruneWindow (now2 - 3600) (s2.hour_requests.getD [])).headD 0
        - (now2 - 3600)
    ∧ (ra3 = 60 ∨ ra3 = 3600)
    ∧ (apply_rate_limit "free" 30 c7state).1 = .rejected 60
    ∧ (0 : Int) < 60 := by
  have part1 : pruneWindow (now1 - 60) (s1.minute_requests.getD []) ≠ []
      ∧ ra1 = (pruneWindow (now1 - 60) (s1.minute_requests.getD [])).headD 0
        - (now1 - 60) := by
    cases hm0 : s1.minute_requests with
    | none =>
        exfalso
        have hcm : check_rate_limit now1 60 rpm1 s1.minute_requests
            = (none, none) := by
          rw [hm0]
          rfl
        unfold rl1_dispatch at h1
        rw [hcm] at h1
        rcases hc2 : check_rate_limit now1 3600 rph1 s1.hour_requests with ⟨h1e, r2⟩
        rw [hc2] at h1
        cases r2 with
        | some ra => simp at h1
        | none => simp at h1
    | some lm =>
        by_cases hg : rpm1 ≤ (pruneWindow (now1 - 60) lm).length
        · have hcm : check_rate_limit now1 60 rpm1 s1.minute_requests
              = (some (pruneWindow (now1 - 60) lm),
                 some ((pruneWindow (now1 - 60) lm).headD 0 - (now1 - 60))) := by
            rw [hm0]
            unfold check_rate_limit
            dsimp only
            rw [if_pos hg]
          unfold rl1_dispatch at h1
          rw [hcm] at h1
          simp only [Prod.mk.injEq, AdmitResult.rejectedMinute.injEq] at h1
          constructor
          · refine List.ne_nil_of_length_pos ?_
            exact lt_of_lt_of_le (Nat.lt_of_lt_of_le Nat.zero_lt_one hm1) hg
          · exact h1.1.symm
        · exfalso
          have hcm : check_rate_limit now1 60 rpm1 s1.minute_requests
              = (some (pruneWindow (now1 - 60) lm), none) := by
            rw [hm0]
            unfold check_rate_limit
            dsimp only
            rw [if_neg hg]
          unfold rl1_dispatch at h1
          rw [hcm] at h1
          rcases hc2 : check_rate_limit now1 3600 rph1 s1.hour_requests with ⟨h1e, r2⟩
          rw [hc2] at h1
          cases r2 with
          | some ra => simp at h1
          | none => simp at h1
  have part2 : pruneWindow (now2 - 3600) (s2.hour_requests.getD []) ≠ []
      ∧ ra2 = (pruneWindow (now2 - 3600) (s2.hour_requests.getD [])).headD 0
        - (now2 - 3600) := by
    rcases hc1 : check_rate_limit now2 60 rpm2 s2.minute_requests with ⟨m1, r1⟩
    unfold rl1_dispatch at h2
    rw [hc1] at h2
    cases r1 with
    | some ra => simp at h2
    | none =>
        cases hh0 : s2.hour_requests with
        | none =>
            exfalso
            have hch : check_rate_limit now2 3600 rph2 s2.hour_requests
                = (none, none) := by
              rw [hh0]
              rfl
            rw [hch] at h2
            simp at h2
        | some lh =>
            by_cases hg : rph2 ≤ (pruneWindow (now2 - 3600) lh).length
            · have hch : check_rate_limit now2 3600 rph2 s2.hour_requests
                  = (some (pruneWindow (now2 - 3600) lh),
                     some ((pruneWindow (now2 - 3600) lh).headD 0 - (now2 - 3600))) := by
                rw [hh0]
                unfold check_rate_limit
                dsimp only
                rw [if_pos hg]
              rw [hch] at h2
              simp only [Prod.mk.injEq, AdmitResult.rejectedHour.injEq] at h2
              constructor
              · refine List.ne_nil_of_length_pos ?_
                exact lt_of_lt_of_le (Nat.lt_of_lt_of_le Nat.zero_lt_one hh2) hg
              · exact h2.1.symm
            · exfalso
              have hch : check_rate_limit now2 3600 rph2 s2.hour_requests
                  = (some (pruneWindow (now2 - 3600) lh), none) := by
                rw [hh0]
                unfold check_rate_limit
                dsimp only
                rw [if_neg hg]
              rw [hch] at h2
              simp at h2
  have part3 : ra3 = 60 ∨ ra3 = 3600 := by
    unfold apply_rate_limit at h3
    dsimp only at h3
    by_cases hg1 : (tier_limits tier).1 ≤ (pruneWindow (now3 - 60) s3.minute).length
    · rw [if_pos hg1] at h3
      simp only [Prod.mk.injEq, AdmitResult2.rejected.injEq] at h3
      exact Or.inl h3.1.symm
    · rw [if_neg hg1] at h3
      by_cases hg2 : (tier_limits tier).2 ≤ (pruneWindow (now3 - 3600) s3.hour).length
      · rw [if_pos hg2] at h3
        simp only [Prod.mk.injEq, AdmitResult2.rejected.injEq] at h3
        exact Or.inr h3.1.symm
      · rw [if_neg hg2] at h3
        simp at h3
  exact ⟨part1.1, part1.2, part2.1, part2.2, part3, by decide, by decide⟩

/-- Witness for the amended C7: a concrete minute rejection, a concrete
hour rejection, and a concrete tier rejection. -/
theorem C7_retry_after_hint_witness :
    pruneWindow ((6 : Int) - 60)
        ((RL1State.mk (some [5]) (some [5])).minute_requests.getD []) ≠ []
    ∧ (59 : Int) = (pruneWindow ((6 : Int) - 60)
        ((RL1State.mk (some [5]) (some [5])).minute_requests.getD [])).headD 0
        - (6 - 60)
    ∧ pruneWindow ((6 : Int) - 3600)
        ((RL1State.mk none (some [5])).hour_requests.getD []) ≠ []
    ∧ (3599 : Int) = (pruneWindow ((6 : Int) - 3600)
        ((RL1State.mk none (some [5])).hour_requests.getD [])).headD 0
        - (6 - 3600)
    ∧ ((60 : Int) = 60 ∨ (60 : Int) = 3600)
    ∧ (apply_rate_limit "free" 30 c7state).1 = .rejected 60
    ∧ (0 : Int) < 60 :=
  C7_retry_after_hint 1 1 (by decide) 6 (RL1State.mk (some [5]) (some [5]))
    (RL1State.mk (some [5]) (some [5])) 59 (by decide)
    1 1 (by decide) 6 (RL1State.mk none (some [5]))
    (RL1State.mk none (some [5])) 3599 (by decide)
    "free" 30 c7state (apply_rate_limit "free" 30 c7state).2 60 (by decide)

end A2APoC
